import Mathlib

set_option maxRecDepth 8192
set_option exponentiation.threshold 2048

/-!
Verification of the shop_scraping repository.

This file gives a shallow embedding, in Lean, of the parts of the
repository that the specification's claims are about:

* `src/uploader/db_uploader.py` — `parse_filters_raw`, `_none_if_nan`,
  `upload_scrape_data` (the Bulk Loader);
* `src/scrapers/popular_products.py` — `parse_reviews_count`,
  `parse_price_from_extensions`, `construct_shopping_link`,
  `extract_product_id_from_link`, the two provider adapters and the
  fallback driver `fetch_popular_products`;
* `src/scrapers/shopping_tab.py` — the filter-string serialization of
  `fetch_aus_results_with_filters`;
* `src/cleaner/clean_data.py` — `clean_popular_products` and
  `clean_shopping_tab` over a small dataframe model.

Python strings are modelled as `List Char` where character-level
operations matter and as `String` elsewhere; Python scalar values are
modelled by `PyVal`, with floats as `PyFloat` (a rational value, NaN,
or ±infinity; binary rounding of finite values is not modelled, and
overflow to infinity is modelled with the 2^1024 cutoff).  Raised
exceptions are modelled with `Except PyErr`.  External collaborators
(psycopg2 connections/transactions, the HTTP layer, pandas cell
coercions) are modelled at their documented interfaces, as the spec
directs.
-/

/-! ## Python scalar values -/

/-- Exact (unreduced) rational number with an integer numerator and a
positive natural denominator; used to model finite Python float values
without binary rounding.  All constructions in this file keep `den`
positive. -/
structure PyQ where
  num : Int
  den : Nat
deriving DecidableEq

/-- Model of a Python float: NaN, ±infinity, or a finite value
(represented exactly as a rational; binary rounding is not modelled). -/
inductive PyFloat where
  | nan
  | inf
  | ninf
  | val (q : PyQ)
deriving DecidableEq

/-- Model of a Python scalar value as it appears in the scraped record
dicts and JSON payloads. -/
inductive PyVal where
  | none
  | bool (b : Bool)
  | int (n : Int)
  | float (f : PyFloat)
  | str (s : String)
deriving DecidableEq

/-- Python exceptions distinguished by the modelled code. -/
inductive PyErr where
  | valueError
  | overflowError
  | typeError
  | indexError
  | runtimeError
  | dbError
deriving DecidableEq

/-- Python truthiness (`bool(v)`): `None`, `False`, zero and the empty
string are falsy; NaN and infinities are truthy. -/
def pyTruthy : PyVal → Bool
  | .none => false
  | .bool b => b
  | .int n => n != 0
  | .float (.val q) => q.num != 0
  | .float _ => true
  | .str s => s != ""

/-- Python `a or b`: returns `a` when it is truthy, else `b`. -/
def pyOr (a b : PyVal) : PyVal :=
  if pyTruthy a then a else b

/-- Python `d.get(k)`: an absent key yields `None`. -/
def pyGet (o : Option PyVal) : PyVal :=
  o.getD .none

/-- Python `d.get(k, default)`. -/
def pyGetD (o : Option PyVal) (d : PyVal) : PyVal :=
  o.getD d

/-! ## Python string helpers (on `List Char`) -/

/-- Characters stripped by Python `str.strip()` (the ASCII whitespace
set; rare Unicode whitespace is not modelled). -/
def pyIsSpace (c : Char) : Bool :=
  c = ' ' || c = '\t' || c = '\n' || c = '\r' || c = '\x0b' || c = '\x0c'

/-- Drop trailing whitespace. -/
def dropTrailing (l : List Char) : List Char :=
  (l.reverse.dropWhile pyIsSpace).reverse

/-- Python `str.strip()`. -/
def pyStrip (l : List Char) : List Char :=
  dropTrailing (l.dropWhile pyIsSpace)

/-- Python `s.split(sep)` for a one-character separator: always returns
at least one (possibly empty) part and keeps empty parts. -/
def splitChar (c : Char) : List Char → List (List Char)
  | [] => [[]]
  | x :: xs =>
    if x = c then [] :: splitChar c xs
    else
      match splitChar c xs with
      | [] => [[x]]
      | y :: ys => (x :: y) :: ys

/-- Whether `sep` occurs as a contiguous substring (Python `sep in s`),
for a non-empty `sep`. -/
def hasSubstr (sep : List Char) : List Char → Bool
  | [] => sep.isEmpty
  | x :: xs => sep.isPrefixOf (x :: xs) || hasSubstr sep xs

/-- Python `s.split(sep, 1)` for a non-empty separator: the part before
the first occurrence of `sep` and everything after it, or `none` when
`sep` does not occur. -/
def splitFirst (sep : List Char) : List Char → Option (List Char × List Char)
  | [] => Option.none
  | x :: xs =>
    if sep.isPrefixOf (x :: xs) then some ([], (x :: xs).drop sep.length)
    else
      match splitFirst sep xs with
      | some (a, b) => some (x :: a, b)
      | Option.none => Option.none

/-- Numeric value of a run of ASCII digits. -/
def digitsVal (ds : List Char) : Nat :=
  ds.foldl (fun a c => a * 10 + (c.toNat - 48)) 0

/-! ## `parse_filters_raw` (src/uploader/db_uploader.py) -/

/-- The `" - "` separator used between a filter category and value. -/
def filterSep : List Char := [' ', '-', ' ']

/-- Core of `parse_filters_raw` on character lists: split on `','`,
strip each part, drop empty parts, split each remaining part once on
the first `" - "` (parts without it are silently dropped), and strip
category and value. -/
def parseFiltersCore (s : List Char) : List (List Char × List Char) :=
  let parts := ((splitChar ',' s).map pyStrip).filter (fun p => !p.isEmpty)
  parts.filterMap (fun part =>
    match splitFirst filterSep part with
    | some (cat, val) => some (pyStrip cat, pyStrip val)
    | Option.none => Option.none)

/-- `parse_filters_raw`: a falsy or non-string argument yields `[]`;
otherwise the string is parsed by `parseFiltersCore`. -/
def parse_filters_raw (v : PyVal) : List (List Char × List Char) :=
  match v with
  | .str s => if s.data.isEmpty then [] else parseFiltersCore s.data
  | _ => []

/-- Serialization of filter facets as built by
`fetch_aus_results_with_filters` (src/scrapers/shopping_tab.py):
non-empty `"category - value"` segments joined by `", "`.  `joinComma`
is Python's `", ".join`. -/
def joinComma : List (List Char) → List Char
  | [] => []
  | [x] => x
  | x :: y :: ys => x ++ ',' :: ' ' :: joinComma (y :: ys)

/-- The serialized `filters_raw` string for a list of (category, value)
pairs, as `fetch_aus_results_with_filters` builds it. -/
def serializeFilters (pairs : List (List Char × List Char)) : List Char :=
  joinComma (pairs.map (fun p => p.1 ++ filterSep ++ p.2))

example : parseFiltersCore "Brand - Nike, Color - Blue".data =
    [("Brand".data, "Nike".data), ("Color".data, "Blue".data)] := by decide

example : parseFiltersCore (serializeFilters [("a,b".data, "v".data)]) =
    [("b".data, "v".data)] := by decide


/-! ## Python `float()` and `int()` conversions -/

/-- Lowercase a character list (ASCII). -/
def lowerChars (l : List Char) : List Char :=
  l.map Char.toLower

/-- Comparison `a ≤ b` of exact rationals by cross-multiplication
(denominators are positive by construction). -/
def qLeB (a b : PyQ) : Bool :=
  a.num * (b.den : Int) ≤ b.num * (a.den : Int)

/-- Rounding cutoff of IEEE doubles: finite rationals whose magnitude
reaches `2 ^ 1024` convert to ±infinity. -/
def floatCutoff : PyQ := ⟨Int.ofNat (Nat.pow 2 1024), 1⟩

/-- Clamp a finite value to ±infinity past the double cutoff. -/
def clampFloat (q : PyQ) : PyFloat :=
  if qLeB floatCutoff q then .inf
  else if qLeB q ⟨-floatCutoff.num, 1⟩ then .ninf
  else .val q

/-- Mantissa/exponent part of Python `float(str)` after sign handling:
`digits [. digits] [e|E [sign] digits]`, at least one digit in the
mantissa, nothing trailing. -/
def parseDecimalExp (sign : Int) (r : List Char) : Option PyFloat :=
  let ip := r.takeWhile Char.isDigit
  let r1 := r.drop ip.length
  let (fp, r2) :=
    match r1 with
    | '.' :: rest => (rest.takeWhile Char.isDigit, rest.drop (rest.takeWhile Char.isDigit).length)
    | _ => ([], r1)
  if ip.isEmpty && fp.isEmpty then Option.none
  else
    let mant : PyQ :=
      ⟨sign * ((digitsVal ip : Int) * Int.ofNat (Nat.pow 10 fp.length) + (digitsVal fp : Int)),
       Nat.pow 10 fp.length⟩
    match r2 with
    | [] => some (clampFloat mant)
    | e :: rest =>
      if e = 'e' || e = 'E' then
        let (eneg, r3) : Bool × List Char :=
          match rest with
          | '+' :: r3 => (false, r3)
          | '-' :: r3 => (true, r3)
          | r3 => (false, r3)
        let ed := r3.takeWhile Char.isDigit
        if ed.isEmpty || !(r3.drop ed.length).isEmpty then Option.none
        else if eneg then some (clampFloat ⟨mant.num, mant.den * Nat.pow 10 (digitsVal ed)⟩)
        else some (clampFloat ⟨mant.num * Int.ofNat (Nat.pow 10 (digitsVal ed)), mant.den⟩)
      else Option.none

/-- Python `float(str)`: strip whitespace, optional sign, then either a
decimal numeral with optional exponent, or `inf`/`infinity`/`nan`
(case-insensitive).  `none` models a raised `ValueError`.  (Underscore
digit separators and Unicode digits are not modelled.) -/
def pyParseFloat (s : List Char) : Option PyFloat :=
  let t := pyStrip s
  match t with
  | [] => Option.none
  | _ =>
    let (sign, r) : Int × List Char :=
      match t with
      | '+' :: r => (1, r)
      | '-' :: r => (-1, r)
      | r => (1, r)
    if lowerChars r = "inf".data || lowerChars r = "infinity".data then
      some (if sign = 1 then .inf else .ninf)
    else if lowerChars r = "nan".data then some .nan
    else parseDecimalExp sign r

/-- Python `float(v)` on a scalar value: `none` models a raised
exception (`TypeError` for `None`, `ValueError` for a bad string). -/
def pyFloatOfVal : PyVal → Option PyFloat
  | .none => Option.none
  | .bool b => some (.val ⟨if b then 1 else 0, 1⟩)
  | .int n => some (.val ⟨n, 1⟩)
  | .float f => some f
  | .str s => pyParseFloat s.data

/-- `_is_number` (src/scrapers): `float(val)` succeeds. -/
def is_number (v : PyVal) : Bool :=
  (pyFloatOfVal v).isSome

/-- Truncation of an integer quotient toward zero (what Python `int()`
does to a finite float). -/
def intTrunc (n : Int) (d : Nat) : Int :=
  match n with
  | .ofNat m => .ofNat (m / d)
  | .negSucc m => -Int.ofNat ((m + 1) / d)

/-- Python `int(f)` on a float: `ValueError` on NaN, `OverflowError` on
±infinity, truncation toward zero otherwise. -/
def pyIntOfFloat : PyFloat → Except PyErr Int
  | .nan => .error .valueError
  | .inf => .error .overflowError
  | .ninf => .error .overflowError
  | .val q => .ok (intTrunc q.num q.den)

/-- Multiplication of a Python float by a positive integer constant
(`num * 1000`, `num * 1000000`), overflowing to infinity past the
double cutoff. -/
def pyMulPos (f : PyFloat) (k : Nat) : PyFloat :=
  match f with
  | .nan => .nan
  | .inf => .inf
  | .ninf => .ninf
  | .val q => clampFloat ⟨q.num * (k : Int), q.den⟩

/-! ## `parse_reviews_count` (src/scrapers/popular_products.py) -/

/-- A `try ... except ValueError: return 0` block around an
int-conversion: `ValueError` is absorbed, other exceptions propagate. -/
def catchValueError (r : Except PyErr Int) : Except PyErr Int :=
  match r with
  | .error .valueError => .ok 0
  | x => x

/-- Whether `t.upper().endswith(c)` holds for an uppercase letter `c`. -/
def endsWithUpper (t : List Char) (c : Char) : Bool :=
  match t.getLast? with
  | some x => x.toUpper = c
  | Option.none => false

/-- `parse_reviews_count`: falsy or non-string input yields 0; the
string is stripped and parentheses removed; a `K`/`M` suffix scales by
10^3/10^6; plain numerals go through `int(float(s))`.  `ValueError`
(bad numeral, NaN) is caught and yields 0; `OverflowError` from
`int()` on an infinite value is not caught and propagates. -/
def parse_reviews_count (v : PyVal) : Except PyErr Int :=
  if !pyTruthy v then .ok 0
  else
    match v with
    | .str s =>
      let t := (pyStrip s.data).filter (fun c => c ≠ '(' && c ≠ ')')
      if endsWithUpper t 'K' then
        match pyParseFloat t.dropLast with
        | some num => catchValueError (pyIntOfFloat (pyMulPos num 1000))
        | Option.none => .ok 0
      else if endsWithUpper t 'M' then
        match pyParseFloat t.dropLast with
        | some num => catchValueError (pyIntOfFloat (pyMulPos num 1000000))
        | Option.none => .ok 0
      else
        match pyParseFloat t with
        | some f => catchValueError (pyIntOfFloat f)
        | Option.none => .ok 0
    | _ => .ok 0

example : parse_reviews_count (.str "7.7K") = .ok 7700 := rfl
example : parse_reviews_count (.str "2.5M") = .ok 2500000 := rfl
example : parse_reviews_count (.str "123") = .ok 123 := rfl
example : parse_reviews_count (.str "") = .ok 0 := rfl
example : parse_reviews_count .none = .ok 0 := rfl
example : parse_reviews_count (.str "(1,234)") = .ok 0 := rfl
example : parse_reviews_count (.str "inf") = .error .overflowError := rfl
example : parse_reviews_count (.str "nan") = .ok 0 := rfl
example : parse_reviews_count (.str " 7.7K ") = .ok 7700 := rfl
example : parse_reviews_count (.str "1e400") = .error .overflowError := rfl

/-! ## The Bulk Loader (src/uploader/db_uploader.py) -/

/-- `_none_if_nan`: a float NaN becomes `None`; everything else is
unchanged. -/
def none_if_nan (v : PyVal) : PyVal :=
  match v with
  | .float .nan => .none
  | x => x

/-- A scraped record dict.  Each field is `Option PyVal`: `Option.none`
models an absent key (`dict.get` then yields Python `None` or the
supplied default), `some v` a present key with value `v`. -/
structure Rec where
  date : Option PyVal := Option.none
  scrape_date : Option PyVal := Option.none
  keyword : Option PyVal := Option.none
  position : Option PyVal := Option.none
  product_id : Option PyVal := Option.none
  title : Option PyVal := Option.none
  link : Option PyVal := Option.none
  rating : Option PyVal := Option.none
  reviews : Option PyVal := Option.none
  price : Option PyVal := Option.none
  price_raw : Option PyVal := Option.none
  merchant : Option PyVal := Option.none
  is_carousel : Option PyVal := Option.none
  carousel_position : Option PyVal := Option.none
  has_product_page : Option PyVal := Option.none
  filters_raw : Option PyVal := Option.none
  api_source : Option PyVal := Option.none
deriving DecidableEq, Inhabited

/-- One value tuple destined for the `scrape_data` insert, in the
column order of `insert_cols`. -/
structure MainTuple where
  campaign_id : Int
  scrape_type_id : Int
  scrape_date : PyVal
  keyword : PyVal
  position : PyVal
  product_id : PyVal
  title : PyVal
  link : PyVal
  rating : PyVal
  reviews : PyVal
  price : PyVal
  price_raw : PyVal
  merchant : PyVal
  is_carousel : PyVal
  carousel_position : PyVal
  has_product_page : PyVal
deriving DecidableEq

/-- The per-record tuple construction in step 1 of
`upload_scrape_data`: empty-string `product_id`/`link` become `None`,
NaN numerics become `None`, `title`/`price_raw`/`merchant` default to
`""`, booleans default to `False`. -/
def buildMainTuple (campaign_id scrape_type_id : Int) (rec : Rec) : MainTuple :=
  let scrape_date := pyOr (pyGet rec.date) (pyGet rec.scrape_date)
  let pid_raw := pyGet rec.product_id
  let pid := if pid_raw = PyVal.str "" then PyVal.none else pid_raw
  let link_raw := pyOr (pyGet rec.link) (PyVal.str "")
  let link := if link_raw = PyVal.str "" then PyVal.none else link_raw
  { campaign_id := campaign_id
    scrape_type_id := scrape_type_id
    scrape_date := scrape_date
    keyword := pyGet rec.keyword
    position := none_if_nan (pyGet rec.position)
    product_id := pid
    title := pyOr (pyGet rec.title) (PyVal.str "")
    link := link
    rating := none_if_nan (pyGet rec.rating)
    reviews := none_if_nan (pyGet rec.reviews)
    price := none_if_nan (pyGet rec.price)
    price_raw := pyOr (pyGet rec.price_raw) (PyVal.str "")
    merchant := pyOr (pyGet rec.merchant) (PyVal.str "")
    is_carousel := pyGetD rec.is_carousel (PyVal.bool false)
    carousel_position := pyGet rec.carousel_position
    has_product_page := pyGetD rec.has_product_page (PyVal.bool false) }

/-- One element of the value returned by `execute_values(fetch=True)`:
a row tuple of ids, a bare int, or something else (skipped). -/
inductive RItem where
  | tup (vs : List Int)
  | intv (n : Int)
  | other
deriving DecidableEq

/-- The shapes of `returned` that step 4 of `upload_scrape_data`
distinguishes with `isinstance` checks: a flat list (first element not
a list), a list of pages (first element a list; mixed shapes beyond
the first element are not modelled, psycopg2 never produces them), a
bare tuple, a bare int, anything else, or a raised database error
during the insert itself. -/
inductive Returned where
  | rflat (items : List RItem)
  | rpages (pages : List (List RItem))
  | rtuple (vs : List Int)
  | rint (n : Int)
  | rother
  | rerror
deriving DecidableEq

/-- Flattening of one item: `item[0]` of an empty tuple raises
`IndexError`; non-tuple non-int items are silently skipped. -/
def normItem : RItem → Except PyErr (Option Int)
  | .tup [] => .error .indexError
  | .tup (v :: _) => .ok (some v)
  | .intv n => .ok (some n)
  | .other => .ok Option.none

/-- Flattening of a list of items into ids, left to right. -/
def normItems : List RItem → Except PyErr (List Int)
  | [] => .ok []
  | i :: is => do
    let v ← normItem i
    let rest ← normItems is
    pure (match v with | some n => n :: rest | Option.none => rest)

/-- Step 4 of `upload_scrape_data`: normalize `returned` into a flat
list of ids. -/
def normalizeIds : Returned → Except PyErr (List Int)
  | .rflat items => normItems items
  | .rpages pages => normItems pages.flatten
  | .rtuple [] => .error .indexError
  | .rtuple (v :: _) => .ok [v]
  | .rint n => .ok [n]
  | .rother => .ok []
  | .rerror => .error .dbError

/-- A row of the `scrape_data_filter` child table. -/
abbrev FilterRow : Type := Int × List Char × List Char

/-- Step 6 of `upload_scrape_data`: zip records with their ids and
re-derive each record's filter pairs. -/
def buildFilterRows (records : List Rec) (ids : List Int) : List FilterRow :=
  (records.zip ids).flatMap
    (fun p => (parse_filters_raw (pyGet p.1.filters_raw)).map (fun cv => (p.2, cv.1, cv.2)))

/-- Committed database state: the two tables the loader writes. -/
structure DBState where
  scrape_data : List MainTuple
  scrape_data_filter : List FilterRow
deriving DecidableEq

/-- Observable events of one `upload_scrape_data` call: connection
opening, the two bulk statements, and transaction end.  psycopg2 runs
the statements in one transaction: nothing is committed before
`conn.commit()`, and the connection context manager rolls back on an
escaping exception. -/
inductive Ev where
  | connect
  | execMain (vals : List MainTuple)
  | execFilters (rows : List FilterRow)
  | commit
  | rollback
deriving DecidableEq

/-- `upload_scrape_data`.  Inputs beyond the Python arguments model the
environment: `returned` is the value produced by the main
`execute_values(fetch=True)` call (or its raised error), and
`filtersInsertFails` models the child-table `execute_values` raising a
database error.  The result is the Python return value (or raised
exception), the committed database state after the call, and the event
trace. -/
def upload_scrape_data (campaign_id scrape_type_id : Int) (records : List Rec)
    (returned : Returned) (filtersInsertFails : Bool) (st : DBState) :
    Except PyErr (List Int) × DBState × List Ev :=
  let main_insert_values := records.map (buildMainTuple campaign_id scrape_type_id)
  if main_insert_values.isEmpty then (.ok [], st, [])
  else
    match normalizeIds returned with
    | .error e => (.error e, st, [.connect, .execMain main_insert_values, .rollback])
    | .ok inserted_ids =>
      if inserted_ids.length ≠ records.length then
        (.error .runtimeError, st, [.connect, .execMain main_insert_values, .rollback])
      else
        let filter_rows := buildFilterRows records inserted_ids
        if filter_rows.isEmpty then
          (.ok inserted_ids,
           ⟨st.scrape_data ++ main_insert_values, st.scrape_data_filter⟩,
           [.connect, .execMain main_insert_values, .commit])
        else if filtersInsertFails then
          (.error .dbError, st,
           [.connect, .execMain main_insert_values, .execFilters filter_rows, .rollback])
        else
          (.ok inserted_ids,
           ⟨st.scrape_data ++ main_insert_values, st.scrape_data_filter ++ filter_rows⟩,
           [.connect, .execMain main_insert_values, .execFilters filter_rows, .commit])

/-! ## String representation of Python values -/

/-- Smallest `e ≤ 40` with `den ∣ 10 ^ e`, for printing a decimal. -/
def decExp (den : Nat) : Option Nat :=
  (List.range 40).find? (fun e => Nat.pow 10 e % den = 0)

/-- Python `repr` of a finite float holding an exact decimal value:
shortest round-tripping decimal, so the decimal digits with trailing
zeros stripped and at least one fractional digit (`2.0`, `2.5`,
`2.47`).  Scientific notation for very large/small magnitudes and
binary rounding artefacts are not modelled; no claim depends on
them. -/
def decimalRepr (q : PyQ) : String :=
  let a : Nat := q.num.natAbs
  let sgn := if q.num < 0 then "-" else ""
  match decExp q.den with
  | some e =>
    if e = 0 then sgn ++ toString (a / q.den) ++ ".0"
    else
      let m := a * Nat.pow 10 e / q.den
      let ds := (toString m).data
      let n := ds.length
      let ipart := if n ≤ e then ['0'] else ds.take (n - e)
      let fpart := if n ≤ e then List.replicate (e - n) '0' ++ ds else ds.drop (n - e)
      let f2 := (fpart.reverse.dropWhile (fun c => c = '0')).reverse
      sgn ++ String.mk ipart ++ "." ++ String.mk (if f2.isEmpty then ['0'] else f2)
  | Option.none => sgn ++ toString a ++ "/" ++ toString q.den

/-- Python `repr`/`str` of a float. -/
def pyFloatRepr : PyFloat → String
  | .nan => "nan"
  | .inf => "inf"
  | .ninf => "-inf"
  | .val q => decimalRepr q

/-- Python `str(v)` on a scalar value. -/
def pyStr : PyVal → String
  | .none => "None"
  | .bool true => "True"
  | .bool false => "False"
  | .int n => toString n
  | .float f => pyFloatRepr f
  | .str s => s

/-! ## `parse_price_from_extensions`, links and product ids
(src/scrapers/popular_products.py) -/

/-- Match `\d+(?:\.\d+)?` at the head of `l` and return its value. -/
def matchPriceNum (l : List Char) : Option PyQ :=
  let ds := l.takeWhile Char.isDigit
  if ds.isEmpty then Option.none
  else
    match l.drop ds.length with
    | '.' :: r2 =>
      let fs := r2.takeWhile Char.isDigit
      if fs.isEmpty then some ⟨digitsVal ds, 1⟩
      else some ⟨(digitsVal ds : Int) * Int.ofNat (Nat.pow 10 fs.length) + (digitsVal fs : Int),
                 Nat.pow 10 fs.length⟩
    | _ => some ⟨digitsVal ds, 1⟩

/-- The literal part of the first price pattern. -/
def cpPat : List Char := "Current price:".data

/-- `re.search` of `Current price:\s*\$?(\d+(?:\.\d+)?)`: try each
start position left to right. -/
def scanCurrentPrice : List Char → Option PyQ
  | [] => Option.none
  | c :: cs =>
    match
      (if cpPat.isPrefixOf (c :: cs) then
        let after := ((c :: cs).drop cpPat.length).dropWhile pyIsSpace
        matchPriceNum (match after with | '$' :: r => r | r => r)
      else Option.none) with
    | some q => some q
    | Option.none => scanCurrentPrice cs

/-- `re.search` of `\$(\d+(?:\.\d+)?)`. -/
def scanDollar : List Char → Option PyQ
  | [] => Option.none
  | c :: cs =>
    if c = '$' then
      match matchPriceNum cs with
      | some q => some q
      | Option.none => scanDollar cs
    else scanDollar cs

/-- `parse_price_from_extensions`: falsy or non-string input yields
`(None, "")`; a matched price yields the value and a `$`-prefixed
float repr; otherwise the original string is returned as the raw
text. -/
def parse_price_from_extensions (v : PyVal) : Option PyQ × String :=
  if !pyTruthy v then (Option.none, "")
  else
    match v with
    | .str s =>
      match scanCurrentPrice s.data with
      | some q => (some q, "$" ++ pyFloatRepr (.val q))
      | Option.none =>
        match scanDollar s.data with
        | some q => (some q, "$" ++ pyFloatRepr (.val q))
        | Option.none => (Option.none, s)
    | _ => (Option.none, "")

/-- `construct_shopping_link`. -/
def construct_shopping_link (product_id : String) : String :=
  if product_id = "" then ""
  else "https://www.google.com.au/shopping/product/" ++ product_id

/-- The literal part of the product-id pattern. -/
def pidPat : List Char := "/shopping/product/".data

/-- `re.search` of `/shopping/product/(\d+)`: the maximal digit run
after the first occurrence of the literal that is followed by at least
one digit. -/
def searchProductId : List Char → Option (List Char)
  | [] => Option.none
  | c :: cs =>
    if pidPat.isPrefixOf (c :: cs) then
      let ds := ((c :: cs).drop pidPat.length).takeWhile Char.isDigit
      if ds.isEmpty then searchProductId cs else some ds
    else searchProductId cs

/-- Python `link.rstrip("/")`. -/
def rstripSlash (l : List Char) : List Char :=
  (l.reverse.dropWhile (fun c => c = '/')).reverse

/-- `extract_product_id_from_link`: pattern match first, then the last
path segment if purely numeric, else `None`. -/
def extract_product_id_from_link (link : String) : Option String :=
  if link = "" then Option.none
  else
    match searchProductId link.data with
    | some ds => some (String.mk ds)
    | Option.none =>
      let lastp := (splitChar '/' (rstripSlash link.data)).getLastD []
      if !lastp.isEmpty && lastp.all Char.isDigit then some (String.mk lastp)
      else Option.none

example : extract_product_id_from_link
    "https://www.google.com.au/shopping/product/16052668069645325775" =
    some "16052668069645325775" := rfl
example : parse_price_from_extensions (.str "Current price: $2") =
    (some ⟨2, 1⟩, "$2.0") := rfl

/-! ## Provider adapters and fallback (src/scrapers/popular_products.py) -/

/-- Outcome of one HTTP GET as the scrapers see it: transport failure
(timeout etc.), a non-2xx status (`raise_for_status` throws), or a
parsed JSON payload. -/
inductive ApiResponse (α : Type) where
  | netError
  | httpError (code : Nat)
  | ok (data : α)

/-- One item of a ScrapingDog `popular_products` list (keys the adapter
reads; an absent key is `Option.none`). -/
structure SDItem where
  product_id : Option PyVal := Option.none
  title : Option PyVal := Option.none
  reviews : Option PyVal := Option.none
  price : Option PyVal := Option.none
  extensions : Option PyVal := Option.none
  seller : Option PyVal := Option.none
deriving DecidableEq, Inhabited

/-- A ScrapingDog JSON payload (`data.get("popular_products", [])`). -/
structure SDData where
  popular_products : List SDItem := []
deriving Inhabited

/-- Sequencing of a record-building loop whose body may raise: on the
first raised exception the partial list is discarded (the enclosing
`except` returns `[]`). -/
def exceptMapM (f : α → Except ε β) : List α → Except ε (List β)
  | [] => .ok []
  | a :: as =>
    match f a with
    | .error e => .error e
    | .ok b =>
      match exceptMapM f as with
      | .error e => .error e
      | .ok bs => .ok (b :: bs)

/-- The record built for the `i`-th ScrapingDog item (0-based `i` from
`enumerate`); `d` is the collection timestamp. -/
def buildSDRecord (d kw : String) (i : Nat) (item : SDItem) : Except PyErr Rec :=
  let product_id : String :=
    if pyTruthy (pyGet item.product_id) then pyStr (pyGetD item.product_id (PyVal.str ""))
    else ""
  let link : String := if product_id ≠ "" then construct_shopping_link product_id else ""
  match parse_reviews_count (pyGetD item.reviews (PyVal.str "")) with
  | .error e => .error e
  | .ok reviews_count =>
  let pv := pyGet item.price
  let pr : PyVal × String :=
    match (if pyTruthy pv then pyFloatOfVal pv else Option.none) with
    | some f => (PyVal.float f, "$" ++ pyFloatRepr f)
    | Option.none =>
      let pe := parse_price_from_extensions (pyGetD item.extensions (PyVal.str ""))
      (match pe.1 with
       | some q => PyVal.float (.val q)
       | Option.none => PyVal.none,
       pe.2)
  .ok {
         scrape_date := some (.str d)
         keyword := some (.str kw)
         position := some (.int (i + 1))
         product_id := some (.str product_id)
         title := some (pyOr (pyGetD item.title (.str "")) (.str ""))
         link := some (.str link)
         rating := some PyVal.none
         reviews := some (.int reviews_count)
         price := some pr.1
         price_raw := some (.str pr.2)
         merchant := some (pyOr (pyGetD item.seller (.str "")) (.str ""))
         is_carousel := some (.bool false)
         carousel_position := some PyVal.none
         has_product_page := some (.bool (link ≠ ""))
         filters_raw := some (.str "")
         api_source := some (.str "scrapingdog") }

/-- `fetch_popular_products_scrapingdog`: any transport/status/JSON
failure, or an exception while building records, is absorbed and
yields `[]`. -/
def fetch_popular_products_scrapingdog (d kw : String) (top_n : Nat)
    (resp : ApiResponse SDData) : List Rec :=
  match resp with
  | .netError => []
  | .httpError _ => []
  | .ok data =>
    match exceptMapM (fun p => buildSDRecord d kw p.1 p.2)
        (data.popular_products.take top_n).enum with
    | .ok recs => recs
    | .error _ => []

/-- A `regular_price` JSON sub-dict. -/
structure RegPrice where
  value : Option PyVal := Option.none
  symbol : Option PyVal := Option.none
deriving DecidableEq, Inhabited

/-- One item of a ValueSERP `popular_products` list.  `regular_price`
is `some` exactly when the JSON value is a dict (the code checks
`isinstance(..., dict)`). -/
structure VSItem where
  link : Option PyVal := Option.none
  product_link : Option PyVal := Option.none
  url : Option PyVal := Option.none
  shopping_link : Option PyVal := Option.none
  id : Option PyVal := Option.none
  rating : Option PyVal := Option.none
  reviews : Option PyVal := Option.none
  price : Option PyVal := Option.none
  regular_price : Option RegPrice := Option.none
  title : Option PyVal := Option.none
  position : Option PyVal := Option.none
  merchant : Option PyVal := Option.none
deriving DecidableEq, Inhabited

/-- A ValueSERP JSON payload. -/
structure VSData where
  popular_products : List VSItem := []
deriving Inhabited

/-- The link chain `item.get("link") or item.get("product_link") or
item.get("url") or item.get("shopping_link") or ""`. -/
def vsLink (item : VSItem) : PyVal :=
  pyOr (pyGet item.link)
    (pyOr (pyGet item.product_link)
      (pyOr (pyGet item.url) (pyOr (pyGet item.shopping_link) (.str ""))))

/-- `extract_product_id_from_link(link) or ""`: a falsy link yields
`""`; `re.search` on a truthy non-string link raises `TypeError`. -/
def vsPid (item : VSItem) : Except PyErr String :=
  if !pyTruthy (vsLink item) then Except.ok ""
  else
    match vsLink item with
    | .str s => Except.ok ((extract_product_id_from_link s).getD "")
    | _ => Except.error PyErr.typeError

/-- `int(float(item["reviews"]))` when present and numeric, else 0; the
`int()` call can raise. -/
def vsReviews (item : VSItem) : Except PyErr Int :=
  if pyGet item.reviews != PyVal.none && is_number (pyGet item.reviews) then
    match pyFloatOfVal (pyGet item.reviews) with
    | some f => pyIntOfFloat f
    | Option.none => Except.ok 0
  else Except.ok 0

/-- The record built for one ValueSERP item; `d` is the collection
timestamp.  `int(float(...))` on the reviews value and `re.search` on
a non-string link value can raise, which aborts the whole fetch. -/
def buildVSRecord (d kw : String) (item : VSItem) : Except PyErr Rec :=
  let linkv := vsLink item
  match vsPid item with
  | .error e => .error e
  | .ok pid1 =>
  let pid := if pid1 = "" && pyTruthy (pyGet item.id) then pyStr (pyGet item.id) else pid1
  let rat : PyVal :=
    if pyGet item.rating != PyVal.none && is_number (pyGet item.rating) then
      match pyFloatOfVal (pyGet item.rating) with
      | some f => PyVal.float f
      | Option.none => PyVal.none
    else PyVal.none
  match vsReviews item with
  | .error e => .error e
  | .ok rev =>
  let price : PyVal × String :=
    if pyGet item.price != PyVal.none then
      if is_number (pyGet item.price) then
        (match pyFloatOfVal (pyGet item.price) with
         | some f => PyVal.float f
         | Option.none => PyVal.none,
         pyStr (pyGet item.price))
      else (PyVal.none, pyStr (pyGet item.price))
    else
      match item.regular_price with
      | some rp =>
        if pyGet rp.value != PyVal.none && is_number (pyGet rp.value) then
          (match pyFloatOfVal (pyGet rp.value) with
           | some f => PyVal.float f
           | Option.none => PyVal.none,
           pyStr (pyGetD rp.symbol (.str "")) ++ pyStr (pyGet rp.value))
        else (PyVal.none, "")
      | Option.none => (PyVal.none, "")
  .ok {
         scrape_date := some (.str d)
         keyword := some (.str kw)
         position := some (pyOr (pyGet item.position) (.int 0))
         product_id := some (.str pid)
         title := some (pyOr (pyGetD item.title (.str "")) (.str ""))
         link := some linkv
         rating := some rat
         reviews := some (.int rev)
         price := some price.1
         price_raw := some (.str price.2)
         merchant := some (pyOr (pyGetD item.merchant (.str "")) (.str ""))
         is_carousel := some (.bool false)
         carousel_position := some PyVal.none
         has_product_page := some (.bool (pyTruthy linkv))
         filters_raw := some (.str "")
         api_source := some (.str "valueserp") }

/-- `fetch_popular_products_valueserp`: any failure is absorbed and
yields `[]`. -/
def fetch_popular_products_valueserp (d kw : String) (top_n : Nat)
    (resp : ApiResponse VSData) : List Rec :=
  match resp with
  | .netError => []
  | .httpError _ => []
  | .ok data =>
    match exceptMapM (buildVSRecord d kw) (data.popular_products.take top_n) with
    | .ok recs => recs
    | .error _ => []

/-- `fetch_popular_products`: ScrapingDog first; if it produced no
records, fall back to ValueSERP.  (The fixed inter-request delay is a
real-time effect with no bearing on the returned data.) -/
def fetch_popular_products (d kw : String) (top_n : Nat)
    (sdResp : ApiResponse SDData) (vsResp : ApiResponse VSData) : List Rec :=
  let results := fetch_popular_products_scrapingdog d kw top_n sdResp
  if !results.isEmpty then results
  else fetch_popular_products_valueserp d kw top_n vsResp

/-! ## The Normalizer (src/cleaner/clean_data.py) over a dataframe model -/

/-- A pandas cell value: pandas-null (`None`/`NaN`/`NaT` are all
pandas-null and not distinguished here), a string, an exact number, a
boolean, or a parsed timestamp tagged with its source text. -/
inductive Cell where
  | none
  | str (s : String)
  | num (q : PyQ)
  | bool (b : Bool)
  | date (s : String)
deriving DecidableEq

/-- A dataframe: a row count and an ordered list of named columns
(each a list of `nrows` cells). -/
structure DF where
  nrows : Nat
  cols : List (String × List Cell)
deriving DecidableEq

/-- Column lookup (`df[name]`), first match. -/
def getCol? (df : DF) (name : String) : Option (List Cell) :=
  (df.cols.find? (fun p => p.1 = name)).map (fun p => p.2)

/-- `name in df.columns`. -/
def hasCol (df : DF) (name : String) : Bool :=
  (getCol? df name).isSome

/-- Column assignment (`df[name] = data`): replaces an existing column
in place, otherwise appends the new column at the end, as pandas
does. -/
def setCol (df : DF) (name : String) (data : List Cell) : DF :=
  if hasCol df name then
    ⟨df.nrows, df.cols.map (fun p => if p.1 = name then (name, data) else p)⟩
  else ⟨df.nrows, df.cols ++ [(name, data)]⟩

/-- `df.drop(columns=[name])` / selecting all columns but `name`. -/
def dropCol (df : DF) (name : String) : DF :=
  ⟨df.nrows, df.cols.filter (fun p => p.1 ≠ name)⟩

/-- Elementwise transformation of one column
(`df[name] = f(df[name])`). -/
def mapCol (df : DF) (name : String) (f : Cell → Cell) : DF :=
  ⟨df.nrows, df.cols.map (fun p => if p.1 = name then (p.1, p.2.map f) else p)⟩

/-- Column projection `df[names]`; the call sites only select columns
that are present (pandas would raise for a missing one). -/
def selectCols (df : DF) (names : List String) : DF :=
  ⟨df.nrows, names.filterMap (fun n => (getCol? df n).map (fun d => (n, d)))⟩

/-- Renaming of all column labels (`df.columns = [...]` or
`df.rename`). -/
def renameCols (df : DF) (f : String → String) : DF :=
  ⟨df.nrows, df.cols.map (fun p => (f p.1, p.2))⟩

/-- pandas `pd.to_datetime(col, errors='coerce')` at cell level,
modelled at its interface: null stays null (NaT), other values become
timestamps tagged with their printed source (parse failures, which
also coerce to NaT, are not distinguished — no claim depends on
date values). -/
def pdToDatetime : Cell → Cell
  | .none => .none
  | .str s => .date s
  | .num q => .date (decimalRepr q)
  | .bool b => .date (if b then "True" else "False")
  | .date s => .date s

/-- pandas `pd.to_numeric(col, errors='coerce')` at cell level: null
stays null, numbers stay, booleans become 0/1, parseable strings
become their value, everything else coerces to null (`downcast`
affects only the dtype, not the values). -/
def pdToNumeric : Cell → Cell
  | .none => .none
  | .num q => .num q
  | .bool b => .num ⟨if b then 1 else 0, 1⟩
  | .str s =>
    match pyParseFloat s.data with
    | some (.val q) => .num q
    | _ => .none
  | .date _ => .none

/-- pandas `.astype(bool)` on an object column: Python truthiness per
cell (`bool(None)` is `False`). -/
def astypeBool : Cell → Cell
  | .none => .bool false
  | .str s => .bool (s ≠ "")
  | .num q => .bool (q.num ≠ 0)
  | .bool b => .bool b
  | .date _ => .bool true

/-- The canonical column list of `clean_popular_products`. -/
def expected_cols : List String :=
  ["scrape_date", "keyword", "position", "product_id", "title", "link",
   "rating", "reviews", "price", "price_raw", "merchant", "is_carousel",
   "carousel_position", "has_product_page"]

/-- Step 1 of `clean_popular_products`: when a legacy `date` column is
present and `scrape_date` absent, copy it to `scrape_date` and drop
`date`. -/
def cppRenameDate (df : DF) : DF :=
  if hasCol df "date" && !hasCol df "scrape_date" then
    dropCol (setCol df "scrape_date" ((getCol? df "date").getD [])) "date"
  else df

/-- The `for col in expected_cols: if col not in df: df[col] = None`
loop: synthesize each missing column as all-null. -/
def ensureCols (names : List String) (df : DF) : DF :=
  names.foldl
    (fun d c => if hasCol d c then d else setCol d c (List.replicate d.nrows Cell.none)) df

/-- The coercion block of `clean_popular_products`: `to_datetime` on
`scrape_date`, `to_numeric` on `position`/`reviews`/`rating`/`price`,
`astype(bool)` on `is_carousel`/`has_product_page`. -/
def cppCoerce (df : DF) : DF :=
  mapCol (mapCol (mapCol (mapCol (mapCol (mapCol (mapCol df
    "scrape_date" pdToDatetime)
    "position" pdToNumeric)
    "reviews" pdToNumeric)
    "rating" pdToNumeric)
    "price" pdToNumeric)
    "is_carousel" astypeBool)
    "has_product_page" astypeBool

/-- `clean_popular_products`: rename a legacy `date` column, synthesize
every missing expected column as all-null, coerce dates, numerics and
booleans, and project to the expected columns in order. -/
def clean_popular_products (df : DF) : DF :=
  selectCols (cppCoerce (ensureCols expected_cols (cppRenameDate df))) expected_cols

/-- Normalization of one column label in `clean_shopping_tab`:
`c.strip().lower().replace(' ', '_')`. -/
def normName (s : String) : String :=
  String.mk (((pyStrip s.data).map Char.toLower).map (fun c => if c = ' ' then '_' else c))

/-- The output column order of `clean_shopping_tab`. -/
def st_cols : List String :=
  ["date", "keyword", "position", "product_id", "title", "link", "price",
   "merchant", "filters_raw"]

/-- `df.rename(columns={old: new})`: relabel in place. -/
def renameCol (df : DF) (old new : String) : DF :=
  ⟨df.nrows, df.cols.map (fun p => if p.1 = old then (new, p.2) else p)⟩

/-- `clean_shopping_tab`: parse a `Date` column into `date`, normalize
labels, alias `query` to `keyword` and `filters` to `filters_raw`,
coerce `price`/`position`, drop `image`, then keep — in canonical
order — only those canonical columns that are present (missing ones
are NOT synthesized). -/
def clean_shopping_tab (df : DF) : DF :=
  let d1 :=
    if hasCol df "Date" then
      dropCol (setCol df "date" (((getCol? df "Date").getD []).map pdToDatetime)) "Date"
    else df
  let d2 := renameCols d1 normName
  let d3 := if hasCol d2 "query" && !hasCol d2 "keyword" then renameCol d2 "query" "keyword" else d2
  let d4 := if hasCol d3 "price" then mapCol d3 "price" pdToNumeric else d3
  let d5 := if hasCol d4 "position" then mapCol d4 "position" pdToNumeric else d4
  let d6 := if hasCol d5 "filters" then renameCol d5 "filters" "filters_raw" else d5
  let d7 := dropCol d6 "image"
  selectCols d7 (st_cols.filter (fun c => hasCol d7 c))

example :
    (clean_popular_products ⟨1, [("keyword", [Cell.str "shoes"])]⟩).cols.map Prod.fst =
    expected_cols := rfl
example :
    getCol? (clean_popular_products ⟨1, [("keyword", [Cell.str "shoes"])]⟩) "is_carousel" =
    some [Cell.bool false] := rfl
example :
    getCol? (clean_popular_products ⟨1, [("keyword", [Cell.str "shoes"])]⟩) "position" =
    some [Cell.none] := rfl
example :
    (clean_shopping_tab ⟨1, [("keyword", [Cell.str "k"]), ("position", [Cell.num ⟨1, 1⟩])]⟩).cols.map
      Prod.fst = ["keyword", "position"] := rfl

/-! ## Helper lemmas about the Bulk Loader -/

/-- A successful upload returns exactly one id per record. -/
lemma uploadOk_length {campaign_id scrape_type_id : Int} {records : List Rec}
    {returned : Returned} {ff : Bool} {st : DBState} {ids : List Int}
    {st' : DBState} {evs : List Ev}
    (h : upload_scrape_data campaign_id scrape_type_id records returned ff st =
      (.ok ids, st', evs)) :
    ids.length = records.length := by
  unfold upload_scrape_data at h
  cases records with
  | nil =>
    simp only [List.map_nil, List.isEmpty_nil, if_true, Prod.mk.injEq] at h
    obtain ⟨h1, -, -⟩ := h
    cases h1
    rfl
  | cons r rs =>
    simp only [List.map_cons, List.isEmpty_cons, Bool.false_eq_true, if_false] at h
    split at h
    · simp at h
    · rename_i inserted heq
      split at h
      · simp at h
      · rename_i hlen
        push_neg at hlen
        split at h <;> [skip; split at h] <;>
          simp only [Prod.mk.injEq, Except.ok.injEq] at h
        · obtain ⟨h1, -, -⟩ := h
          exact h1 ▸ hlen
        · simp at h
        · obtain ⟨h1, -, -⟩ := h
          exact h1 ▸ hlen

/-- A successful upload commits exactly the batch: the main tuples
appended to the parent table and the derived filter rows appended to
the child table. -/
lemma uploadOk_state {campaign_id scrape_type_id : Int} {records : List Rec}
    {returned : Returned} {ff : Bool} {st : DBState} {ids : List Int}
    {st' : DBState} {evs : List Ev}
    (h : upload_scrape_data campaign_id scrape_type_id records returned ff st =
      (.ok ids, st', evs)) :
    st'.scrape_data = st.scrape_data ++
        records.map (buildMainTuple campaign_id scrape_type_id) ∧
      st'.scrape_data_filter = st.scrape_data_filter ++ buildFilterRows records ids := by
  unfold upload_scrape_data at h
  cases records with
  | nil =>
    simp only [List.map_nil, List.isEmpty_nil, if_true, Prod.mk.injEq] at h
    obtain ⟨h1, h2, -⟩ := h
    cases h1
    subst h2
    simp [buildFilterRows]
  | cons r rs =>
    simp only [List.map_cons, List.isEmpty_cons, Bool.false_eq_true, if_false] at h
    split at h
    · simp at h
    · rename_i inserted heq
      split at h
      · simp at h
      · split at h <;> [skip; split at h] <;>
          simp only [Prod.mk.injEq, Except.ok.injEq] at h
        · rename_i hemp
          obtain ⟨h1, h2, -⟩ := h
          subst h1
          rw [← h2]
          refine ⟨rfl, ?_⟩
          rw [List.isEmpty_iff] at hemp
          simp [hemp]
        · simp at h
        · obtain ⟨h1, h2, -⟩ := h
          subst h1
          rw [← h2]
          exact ⟨rfl, rfl⟩

/-- A failed upload leaves the committed state unchanged and never
commits. -/
lemma uploadErr_state {campaign_id scrape_type_id : Int} {records : List Rec}
    {returned : Returned} {ff : Bool} {st : DBState} {e : PyErr}
    {st' : DBState} {evs : List Ev}
    (h : upload_scrape_data campaign_id scrape_type_id records returned ff st =
      (.error e, st', evs)) :
    st' = st ∧ Ev.commit ∉ evs := by
  unfold upload_scrape_data at h
  cases records with
  | nil => simp at h
  | cons r rs =>
    simp only [List.map_cons, List.isEmpty_cons, Bool.false_eq_true, if_false] at h
    split at h
    · simp only [Prod.mk.injEq] at h
      obtain ⟨-, h2, h3⟩ := h
      subst h2; subst h3
      exact ⟨rfl, by simp⟩
    · split at h
      · simp only [Prod.mk.injEq] at h
        obtain ⟨-, h2, h3⟩ := h
        subst h2; subst h3
        exact ⟨rfl, by simp⟩
      · split at h
        · simp at h
        · split at h
          · simp only [Prod.mk.injEq] at h
            obtain ⟨-, h2, h3⟩ := h
            subst h2; subst h3
            exact ⟨rfl, by simp⟩
          · simp at h

/-! ## Claim theorems -/

/-- C1: for every batch submitted to the Bulk Loader, a successful
`upload_scrape_data` call returns exactly as many identifiers as
submitted rows; every other outcome is a raised error, so it never
returns successfully with a different count. -/
theorem upload_id_count_matches_rows
    (campaign_id scrape_type_id : Int) (records : List Rec) (returned : Returned)
    (ff : Bool) (st : DBState) {ids : List Int} {st' : DBState} {evs : List Ev}
    (h : upload_scrape_data campaign_id scrape_type_id records returned ff st =
      (.ok ids, st', evs)) :
    ids.length = records.length :=
  uploadOk_length h

/-- A sample record for concrete runs. -/
def sampleRec : Rec :=
  { keyword := some (.str "shoes"), filters_raw := some (.str "Brand - Nike") }

/-- Witness for C1: a concrete one-row upload whose reply carries one
id returns a one-element id list. -/
theorem upload_id_count_matches_rows_witness :
    ([7] : List Int).length = ([sampleRec] : List Rec).length :=
  upload_id_count_matches_rows 1 2 [sampleRec] (.rflat [.tup [7]]) false ⟨[], []⟩ rfl

/-- C10: calling the Bulk Loader with an empty record list returns an
empty identifier list immediately: no connection, no SQL, no state
change. -/
theorem upload_empty_batch_is_noop
    (campaign_id scrape_type_id : Int) (returned : Returned) (ff : Bool) (st : DBState) :
    upload_scrape_data campaign_id scrape_type_id [] returned ff st = (.ok [], st, []) :=
  rfl

/-- C2: the Bulk Loader's per-record normalization: empty-string
`product_id` and `link` become NULL while non-empty strings pass
through verbatim; NaN-valued `position`/`rating`/`reviews`/`price`
become NULL; and `title`/`merchant`/`price_raw` get the empty-string
default (never NULL) when absent, `None`, or empty. -/
theorem loader_null_normalization (campaign_id scrape_type_id : Int) (rec : Rec) :
    (rec.product_id = some (PyVal.str "") →
      (buildMainTuple campaign_id scrape_type_id rec).product_id = PyVal.none) ∧
    (∀ s, s ≠ "" → rec.product_id = some (PyVal.str s) →
      (buildMainTuple campaign_id scrape_type_id rec).product_id = PyVal.str s) ∧
    (rec.link = some (PyVal.str "") →
      (buildMainTuple campaign_id scrape_type_id rec).link = PyVal.none) ∧
    (∀ s, s ≠ "" → rec.link = some (PyVal.str s) →
      (buildMainTuple campaign_id scrape_type_id rec).link = PyVal.str s) ∧
    (rec.position = some (PyVal.float .nan) →
      (buildMainTuple campaign_id scrape_type_id rec).position = PyVal.none) ∧
    (rec.rating = some (PyVal.float .nan) →
      (buildMainTuple campaign_id scrape_type_id rec).rating = PyVal.none) ∧
    (rec.reviews = some (PyVal.float .nan) →
      (buildMainTuple campaign_id scrape_type_id rec).reviews = PyVal.none) ∧
    (rec.price = some (PyVal.float .nan) →
      (buildMainTuple campaign_id scrape_type_id rec).price = PyVal.none) ∧
    ((rec.title = Option.none ∨ rec.title = some PyVal.none ∨ rec.title = some (PyVal.str "")) →
      (buildMainTuple campaign_id scrape_type_id rec).title = PyVal.str "") ∧
    ((rec.merchant = Option.none ∨ rec.merchant = some PyVal.none ∨
        rec.merchant = some (PyVal.str "")) →
      (buildMainTuple campaign_id scrape_type_id rec).merchant = PyVal.str "") ∧
    ((rec.price_raw = Option.none ∨ rec.price_raw = some PyVal.none ∨
        rec.price_raw = some (PyVal.str "")) →
      (buildMainTuple campaign_id scrape_type_id rec).price_raw = PyVal.str "") := by
  refine ⟨?_, ?_, ?_, ?_, ?_, ?_, ?_, ?_, ?_, ?_, ?_⟩
  · intro h; simp [buildMainTuple, pyGet, h]
  · intro s hs h; simp [buildMainTuple, pyGet, h, hs]
  · intro h; simp [buildMainTuple, pyGet, pyOr, pyTruthy, h]
  · intro s hs h; simp [buildMainTuple, pyGet, pyOr, pyTruthy, h, hs]
  · intro h; simp [buildMainTuple, pyGet, none_if_nan, h]
  · intro h; simp [buildMainTuple, pyGet, none_if_nan, h]
  · intro h; simp [buildMainTuple, pyGet, none_if_nan, h]
  · intro h; simp [buildMainTuple, pyGet, none_if_nan, h]
  · rintro (h | h | h) <;> simp [buildMainTuple, pyGet, pyOr, pyTruthy, h]
  · rintro (h | h | h) <;> simp [buildMainTuple, pyGet, pyOr, pyTruthy, h]
  · rintro (h | h | h) <;> simp [buildMainTuple, pyGet, pyOr, pyTruthy, h]

/-- A record exercising every normalization branch of C2. -/
def nanRec : Rec :=
  { product_id := some (.str ""), link := some (.str ""),
    position := some (.float .nan), rating := some (.float .nan),
    reviews := some (.float .nan), price := some (.float .nan),
    title := some PyVal.none, merchant := some (.str "") }

/-- Witness for C2 at concrete records: empty strings become NULL, a
non-empty product id passes through, NaNs become NULL, and the string
defaults survive. -/
theorem loader_null_normalization_witness :
    (buildMainTuple 1 2 nanRec).product_id = PyVal.none ∧
    (buildMainTuple 1 2 { product_id := some (.str "p1") }).product_id = PyVal.str "p1" ∧
    (buildMainTuple 1 2 nanRec).link = PyVal.none ∧
    (buildMainTuple 1 2 { link := some (.str "http://x") }).link = PyVal.str "http://x" ∧
    (buildMainTuple 1 2 nanRec).position = PyVal.none ∧
    (buildMainTuple 1 2 nanRec).rating = PyVal.none ∧
    (buildMainTuple 1 2 nanRec).reviews = PyVal.none ∧
    (buildMainTuple 1 2 nanRec).price = PyVal.none ∧
    (buildMainTuple 1 2 nanRec).title = PyVal.str "" ∧
    (buildMainTuple 1 2 nanRec).merchant = PyVal.str "" ∧
    (buildMainTuple 1 2 nanRec).price_raw = PyVal.str "" :=
  ⟨(loader_null_normalization 1 2 nanRec).1 rfl,
   (loader_null_normalization 1 2 { product_id := some (.str "p1") }).2.1 "p1"
     (by decide) rfl,
   (loader_null_normalization 1 2 nanRec).2.2.1 rfl,
   (loader_null_normalization 1 2 { link := some (.str "http://x") }).2.2.2.1 "http://x"
     (by decide) rfl,
   (loader_null_normalization 1 2 nanRec).2.2.2.2.1 rfl,
   (loader_null_normalization 1 2 nanRec).2.2.2.2.2.1 rfl,
   (loader_null_normalization 1 2 nanRec).2.2.2.2.2.2.1 rfl,
   (loader_null_normalization 1 2 nanRec).2.2.2.2.2.2.2.1 rfl,
   (loader_null_normalization 1 2 nanRec).2.2.2.2.2.2.2.2.1 (Or.inr (Or.inl rfl)),
   (loader_null_normalization 1 2 nanRec).2.2.2.2.2.2.2.2.2.1 (Or.inr (Or.inr rfl)),
   (loader_null_normalization 1 2 nanRec).2.2.2.2.2.2.2.2.2.2 (Or.inl rfl)⟩

/-- Row/id pairing by index: the zip-based construction equals the
indexed one when there is one id per record. -/
lemma buildFilterRows_eq_range (records : List Rec) (ids : List Int)
    (h : ids.length = records.length) :
    buildFilterRows records ids =
      (List.range records.length).flatMap (fun i =>
        (parse_filters_raw (pyGet ((records.getD i default).filters_raw))).map
          (fun cv => (ids.getD i 0, cv.1, cv.2))) := by
  induction records generalizing ids with
  | nil => simp [buildFilterRows]
  | cons r rs ih =>
    cases ids with
    | nil => simp at h
    | cons i is =>
      simp only [List.length_cons, Nat.add_right_cancel_iff] at h
      simp only [List.length_cons]
      rw [List.range_succ_eq_map]
      simp only [List.flatMap_cons, List.flatMap_map]
      simp only [List.getD_cons_succ, List.getD_cons_zero]
      rw [← ih is h]
      simp [buildFilterRows]

/-- C3: for every batch the Bulk Loader accepts, the filter rows it
inserts pair the facets parsed from the `i`-th submitted record's
`filters_raw` with the `i`-th returned identifier, for every index
`i`, in submission order. -/
theorem upload_filter_rows_positional
    (campaign_id scrape_type_id : Int) (records : List Rec) (returned : Returned)
    (ff : Bool) (st : DBState) {ids : List Int} {st' : DBState} {evs : List Ev}
    (h : upload_scrape_data campaign_id scrape_type_id records returned ff st =
      (.ok ids, st', evs)) :
    ids.length = records.length ∧
    st'.scrape_data_filter = st.scrape_data_filter ++
      (List.range records.length).flatMap (fun i =>
        (parse_filters_raw (pyGet ((records.getD i default).filters_raw))).map
          (fun cv => (ids.getD i 0, cv.1, cv.2))) := by
  refine ⟨uploadOk_length h, ?_⟩
  rw [(uploadOk_state h).2, buildFilterRows_eq_range records ids (uploadOk_length h)]

/-- Witness for C3: in a concrete two-row upload with ids 7 and 9, the
first row's facet is attached to 7 and the second row's to 9. -/
theorem upload_filter_rows_positional_witness :
    ([7, 9] : List Int).length = ([sampleRec, { filters_raw := some (.str "Color - Blue") }] :
      List Rec).length ∧
    (⟨[buildMainTuple 1 2 sampleRec,
        buildMainTuple 1 2 { filters_raw := some (.str "Color - Blue") }],
      [((7 : Int), "Brand".data, "Nike".data), ((9 : Int), "Color".data, "Blue".data)]⟩ :
        DBState).scrape_data_filter =
      (⟨[], []⟩ : DBState).scrape_data_filter ++
      (List.range ([sampleRec, { filters_raw := some (.str "Color - Blue") }] :
          List Rec).length).flatMap (fun i =>
        (parse_filters_raw (pyGet ((([sampleRec,
            { filters_raw := some (.str "Color - Blue") }] : List Rec).getD i
              default).filters_raw))).map
          (fun cv => ((([7, 9] : List Int)).getD i 0, cv.1, cv.2))) :=
  upload_filter_rows_positional 1 2 [sampleRec, { filters_raw := some (.str "Color - Blue") }]
    (.rflat [.tup [7], .tup [9]]) false ⟨[], []⟩ rfl

/-- C5: the two inserts happen in one transaction: a successful call
commits exactly the parent tuples and the child filter rows together,
and any error (database error on either statement, malformed reply,
or the count mismatch) leaves the committed state unchanged with no
commit event. -/
theorem upload_transactional
    (campaign_id scrape_type_id : Int) (records : List Rec) (returned : Returned)
    (ff : Bool) (st : DBState) :
    (∀ e st' evs,
      upload_scrape_data campaign_id scrape_type_id records returned ff st =
        (.error e, st', evs) → st' = st ∧ Ev.commit ∉ evs) ∧
    (∀ ids st' evs,
      upload_scrape_data campaign_id scrape_type_id records returned ff st =
        (.ok ids, st', evs) →
      st'.scrape_data = st.scrape_data ++
          records.map (buildMainTuple campaign_id scrape_type_id) ∧
        st'.scrape_data_filter = st.scrape_data_filter ++ buildFilterRows records ids) :=
  ⟨fun _ _ _ h => uploadErr_state h, fun _ _ _ h => uploadOk_state h⟩

/-- Witness for C5: a concrete failing upload (no ids returned for one
row) leaves the state unchanged and uncommitted, and a concrete
successful upload commits both the parent tuple and its filter row. -/
theorem upload_transactional_witness :
    ((⟨[], []⟩ : DBState) = ⟨[], []⟩ ∧
      Ev.commit ∉ [Ev.connect, Ev.execMain [buildMainTuple 1 2 sampleRec], Ev.rollback]) ∧
    ((⟨[buildMainTuple 1 2 sampleRec], [((7 : Int), "Brand".data, "Nike".data)]⟩ :
        DBState).scrape_data =
      (⟨[], []⟩ : DBState).scrape_data ++ [sampleRec].map (buildMainTuple 1 2) ∧
     (⟨[buildMainTuple 1 2 sampleRec], [((7 : Int), "Brand".data, "Nike".data)]⟩ :
        DBState).scrape_data_filter =
      (⟨[], []⟩ : DBState).scrape_data_filter ++ buildFilterRows [sampleRec] [7]) :=
  ⟨(upload_transactional 1 2 [sampleRec] (.rflat []) false ⟨[], []⟩).1
      .runtimeError ⟨[], []⟩ [Ev.connect, Ev.execMain [buildMainTuple 1 2 sampleRec],
        Ev.rollback] rfl,
   (upload_transactional 1 2 [sampleRec] (.rflat [.tup [7]]) false ⟨[], []⟩).2
      [7] ⟨[buildMainTuple 1 2 sampleRec], [((7 : Int), "Brand".data, "Nike".data)]⟩
      [Ev.connect, Ev.execMain [buildMainTuple 1 2 sampleRec],
        Ev.execFilters [((7 : Int), "Brand".data, "Nike".data)], Ev.commit] rfl⟩

/-- An int-conversion guarded only by `except ValueError` can escape
only with an `OverflowError` (from an infinite value). -/
lemma catch_int_only_overflow (f : PyFloat) (e : PyErr)
    (h : catchValueError (pyIntOfFloat f) = .error e) : e = PyErr.overflowError := by
  cases f with
  | nan => simp [pyIntOfFloat, catchValueError] at h
  | inf =>
    simp only [pyIntOfFloat, catchValueError] at h
    exact (Except.error.inj h).symm
  | ninf =>
    simp only [pyIntOfFloat, catchValueError] at h
    exact (Except.error.inj h).symm
  | val q => simp [pyIntOfFloat, catchValueError] at h

/-- Counterexample to C7: the input `"inf"` parses as an infinite
float, and the uncaught `OverflowError` from `int()` escapes
`parse_reviews_count` — so it is not exception-free for every input. -/
theorem parse_reviews_count_raises_on_inf :
    parse_reviews_count (.str "inf") = .error PyErr.overflowError := rfl

/-- C7 (amended): `parse_reviews_count` yields 7700 for `"7.7K"`,
2500000 for `"2.5M"`, 123 for `"123"`, and 0 for the empty string or
`None`, and the only exception it can ever raise is the
`OverflowError` produced by `int()` on an input whose numeric part
parses to an infinite float (such as `"inf"` or `"1e400"`); every
other input returns normally. -/
theorem parse_reviews_count_spec :
    parse_reviews_count (.str "7.7K") = .ok 7700 ∧
    parse_reviews_count (.str "2.5M") = .ok 2500000 ∧
    parse_reviews_count (.str "123") = .ok 123 ∧
    parse_reviews_count (.str "") = .ok 0 ∧
    parse_reviews_count PyVal.none = .ok 0 ∧
    (∀ v e, parse_reviews_count v = .error e → e = PyErr.overflowError) := by
  refine ⟨rfl, rfl, rfl, rfl, rfl, ?_⟩
  intro v e h
  unfold parse_reviews_count at h
  split at h
  · simp at h
  · split at h
    · rename_i s
      simp only [] at h
      split at h
      · split at h
        · exact catch_int_only_overflow _ _ h
        · simp at h
      · split at h
        · split at h
          · exact catch_int_only_overflow _ _ h
          · simp at h
        · split at h
          · exact catch_int_only_overflow _ _ h
          · simp at h
    · simp at h

/-- Witness for C7 (amended): the concrete coercions hold, and the
only-escaping-exception clause instantiated at `"1e400"` (which does
raise) gives `OverflowError`. -/
theorem parse_reviews_count_spec_witness :
    parse_reviews_count (.str "7.7K") = .ok 7700 ∧
    PyErr.overflowError = PyErr.overflowError :=
  ⟨parse_reviews_count_spec.1,
   parse_reviews_count_spec.2.2.2.2.2 (.str "1e400") PyErr.overflowError rfl⟩

/-- Membership in the successful result of a record-building loop
comes from some input item. -/
lemma exceptMapM_mem {α β ε : Type} {f : α → Except ε β} {l : List α} {res : List β}
    (h : exceptMapM f l = .ok res) : ∀ b ∈ res, ∃ a ∈ l, f a = .ok b := by
  induction l generalizing res with
  | nil =>
    simp only [exceptMapM, Except.ok.injEq] at h
    subst h
    simp
  | cons a as ih =>
    unfold exceptMapM at h
    split at h
    · simp at h
    · rename_i b hfa
      split at h
      · simp at h
      · rename_i bs hbs
        simp only [Except.ok.injEq] at h
        subst h
        intro x hx
        rcases List.mem_cons.mp hx with hx | hx
        · exact ⟨a, List.mem_cons_self a as, hx ▸ hfa⟩
        · obtain ⟨a', ha', hfa'⟩ := ih hbs x hx
          exact ⟨a', List.mem_cons_of_mem a ha', hfa'⟩

/-- The record built for the `i`-th ScrapingDog item carries the
1-based position `i + 1`. -/
lemma buildSDRecord_position {d kw : String} {i : Nat} {item : SDItem} {r : Rec}
    (h : buildSDRecord d kw i item = .ok r) : r.position = some (PyVal.int (i + 1)) := by
  unfold buildSDRecord at h
  cases hrc : parse_reviews_count (pyGetD item.reviews (PyVal.str "")) with
  | error err => rw [hrc] at h; exact absurd h (by simp)
  | ok rc =>
    rw [hrc] at h
    simp only [Except.ok.injEq] at h
    subst h
    rfl

/-- A successfully built ValueSERP record with an absent `position`
key carries position 0. -/
lemma buildVSRecord_position {d kw : String} {item : VSItem} {r : Rec}
    (h : buildVSRecord d kw item = .ok r) (hpos : item.position = Option.none) :
    r.position = some (PyVal.int 0) := by
  unfold buildVSRecord at h
  cases hp : vsPid item with
  | error err => rw [hp] at h; exact absurd h (by simp)
  | ok pid1 =>
    rw [hp] at h
    cases hr : vsReviews item with
    | error err => rw [hr] at h; exact absurd h (by simp)
    | ok rev =>
      rw [hr] at h
      simp only [Except.ok.injEq] at h
      subst h
      simp [pyGet, hpos, pyOr, pyTruthy]

/-- Counterexample to C9: the Bulk Loader stores an unknown (absent)
position as NULL, not as the claimed default 0. -/
theorem position_unknown_stored_null :
    (buildMainTuple 1 2 { keyword := some (.str "shoes") }).position = PyVal.none ∧
    PyVal.none ≠ PyVal.int 0 :=
  ⟨rfl, by decide⟩

/-- C9 (amended): position handling is per-stage: the Bulk Loader
passes positions through, storing absent, `None` and NaN positions as
NULL (never defaulting them to 0); the ScrapingDog fetcher assigns
1-based enumeration positions (hence ≥ 1); and the ValueSERP fetcher
defaults an absent position to 0. -/
theorem position_handling_by_stage :
    (∀ (campaign_id scrape_type_id : Int) (rec : Rec),
      (rec.position = Option.none ∨ rec.position = some PyVal.none ∨
        rec.position = some (PyVal.float .nan)) →
      (buildMainTuple campaign_id scrape_type_id rec).position = PyVal.none) ∧
    (∀ (d kw : String) (n : Nat) (resp : ApiResponse SDData) r,
      r ∈ fetch_popular_products_scrapingdog d kw n resp →
      ∃ i : Nat, r.position = some (PyVal.int (i + 1)) ∧ 1 ≤ i + 1) ∧
    (∀ (d kw : String) (item : VSItem) (r : Rec),
      buildVSRecord d kw item = .ok r → item.position = Option.none →
      r.position = some (PyVal.int 0)) := by
  refine ⟨?_, ?_, fun d kw item r h hpos => buildVSRecord_position h hpos⟩
  · rintro cid stid rec (h | h | h) <;> simp [buildMainTuple, pyGet, none_if_nan, h]
  · intro d kw n resp r hr
    unfold fetch_popular_products_scrapingdog at hr
    split at hr
    · simp at hr
    · simp at hr
    · split at hr
      · rename_i recs hrecs
        obtain ⟨p, -, hp⟩ := exceptMapM_mem hrecs r hr
        exact ⟨p.1, buildSDRecord_position hp, Nat.le_add_left 1 p.1⟩
      · simp at hr

/-- A sample ScrapingDog item and the record its fetch produces. -/
def sdSample : SDItem := { title := some (.str "Shoe") }

/-- The single record of a concrete one-item ScrapingDog fetch. -/
def sdSampleRec : Rec :=
  (fetch_popular_products_scrapingdog "d" "k" 10 (.ok ⟨[sdSample]⟩)).getD 0 default

/-- A sample ValueSERP item. -/
def vsSample : VSItem := { title := some (.str "Jumper") }

/-- Witness for C9 (amended): concrete instances of all three parts —
an absent position stored as NULL by the loader, position 1 on the
first ScrapingDog record, and position 0 for a ValueSERP item with no
position key. -/
theorem position_handling_by_stage_witness :
    (buildMainTuple 1 2 { keyword := some (.str "shoes") }).position = PyVal.none ∧
    (∃ i : Nat, sdSampleRec.position = some (PyVal.int (i + 1)) ∧ 1 ≤ i + 1) ∧
    (∃ r : Rec, buildVSRecord "d" "k" vsSample = .ok r ∧
      r.position = some (PyVal.int 0)) := by
  refine ⟨position_handling_by_stage.1 1 2 _ (Or.inl rfl), ?_, ?_⟩
  · exact position_handling_by_stage.2.1 "d" "k" 10 (.ok ⟨[sdSample]⟩) sdSampleRec
      (by decide)
  · exact ⟨_, rfl, position_handling_by_stage.2.2 "d" "k" vsSample _ rfl rfl⟩

/-- Every record the ValueSERP adapter builds is tagged with its
provider. -/
lemma buildVSRecord_api {d kw : String} {item : VSItem} {r : Rec}
    (h : buildVSRecord d kw item = .ok r) :
    r.api_source = some (PyVal.str "valueserp") := by
  unfold buildVSRecord at h
  cases hp : vsPid item with
  | error err => rw [hp] at h; exact absurd h (by simp)
  | ok pid1 =>
    rw [hp] at h
    cases hr : vsReviews item with
    | error err => rw [hr] at h; exact absurd h (by simp)
    | ok rev =>
      rw [hr] at h
      simp only [Except.ok.injEq] at h
      subst h
      rfl

/-- Every record returned by the ValueSERP fetch carries the
`valueserp` tag. -/
lemma fetch_valueserp_tagged (d kw : String) (n : Nat) (resp : ApiResponse VSData) :
    ∀ r ∈ fetch_popular_products_valueserp d kw n resp,
      r.api_source = some (PyVal.str "valueserp") := by
  intro r hr
  unfold fetch_popular_products_valueserp at hr
  split at hr
  · simp at hr
  · simp at hr
  · split at hr
    · rename_i recs hrecs
      obtain ⟨item, -, hitem⟩ := exceptMapM_mem hrecs r hr
      exact buildVSRecord_api hitem
    · simp at hr

/-- C6: provider fallback in `fetch_popular_products`: when the
primary (ScrapingDog) fetch yields no records — which is also what
network failures, empty payloads and non-2xx statuses produce, rather
than an exception — the combined result is exactly the secondary
(ValueSERP) fetch, every record tagged `valueserp`; when the primary
yields records, the result is the primary's and the secondary's
response is never consulted. -/
theorem fetch_fallback_to_valueserp (d kw : String) (n : Nat)
    (sdResp : ApiResponse SDData) (vsResp : ApiResponse VSData) :
    (fetch_popular_products_scrapingdog d kw n sdResp = [] →
      fetch_popular_products d kw n sdResp vsResp =
        fetch_popular_products_valueserp d kw n vsResp ∧
      ∀ r ∈ fetch_popular_products d kw n sdResp vsResp,
        r.api_source = some (PyVal.str "valueserp")) ∧
    (fetch_popular_products_scrapingdog d kw n sdResp ≠ [] →
      ∀ vsResp2, fetch_popular_products d kw n sdResp vsResp2 =
        fetch_popular_products_scrapingdog d kw n sdResp) ∧
    (fetch_popular_products_scrapingdog d kw n .netError = [] ∧
      ∀ c, fetch_popular_products_scrapingdog d kw n (.httpError c) = []) := by
  refine ⟨?_, ?_, rfl, fun c => rfl⟩
  · intro h
    have he : fetch_popular_products d kw n sdResp vsResp =
        fetch_popular_products_valueserp d kw n vsResp := by
      simp [fetch_popular_products, h]
    exact ⟨he, fun r hr => fetch_valueserp_tagged d kw n vsResp r (he ▸ hr)⟩
  · intro h vsResp2
    simp [fetch_popular_products, List.isEmpty_iff, h]

/-- Witness for C6: with a concrete empty primary response and a
one-item secondary payload the result is the secondary's (tagged)
list, and with a concrete non-empty primary the secondary is
ignored. -/
theorem fetch_fallback_to_valueserp_witness :
    (fetch_popular_products "d" "k" 10 (.ok ⟨[]⟩) (.ok ⟨[vsSample]⟩) =
        fetch_popular_products_valueserp "d" "k" 10 (.ok ⟨[vsSample]⟩) ∧
      ∀ r ∈ fetch_popular_products "d" "k" 10 (.ok ⟨[]⟩) (.ok ⟨[vsSample]⟩),
        r.api_source = some (PyVal.str "valueserp")) ∧
    fetch_popular_products "d" "k" 10 (.ok ⟨[sdSample]⟩) .netError =
      fetch_popular_products_scrapingdog "d" "k" 10 (.ok ⟨[sdSample]⟩) :=
  ⟨(fetch_fallback_to_valueserp "d" "k" 10 (.ok ⟨[]⟩) (.ok ⟨[vsSample]⟩)).1 rfl,
   (fetch_fallback_to_valueserp "d" "k" 10 (.ok ⟨[sdSample]⟩) .netError).2.1
     (by decide) .netError⟩

/-! ## Round-trip analysis of filter serialization (C4) -/

/-- The serialized segment of one (category, value) pair. -/
def segOf (p : List Char × List Char) : List Char :=
  p.1 ++ filterSep ++ p.2

lemma serializeFilters_eq_segs (pairs : List (List Char × List Char)) :
    serializeFilters pairs = joinComma (pairs.map segOf) := rfl

lemma splitChar_no_sep {c : Char} {l : List Char} (h : c ∉ l) : splitChar c l = [l] := by
  induction l with
  | nil => rfl
  | cons x xs ih =>
    have hx : x ≠ c := fun he => h (he ▸ List.mem_cons_self x xs)
    have hxs : c ∉ xs := fun hm => h (List.mem_cons_of_mem x hm)
    simp [splitChar, hx, ih hxs]

lemma splitChar_append_sep {c : Char} {xs ys : List Char} (h : c ∉ xs) :
    splitChar c (xs ++ c :: ys) = xs :: splitChar c ys := by
  induction xs with
  | nil => simp [splitChar]
  | cons x xt ih =>
    have hx : x ≠ c := fun he => h (he ▸ List.mem_cons_self x xt)
    have hxt : c ∉ xt := fun hm => h (List.mem_cons_of_mem x hm)
    simp [splitChar, hx, ih hxt]

lemma splitChar_cons_head {c x : Char} {l : List Char} {y : List Char} {ys : List (List Char)}
    (hx : x ≠ c) (hl : splitChar c l = y :: ys) :
    splitChar c (x :: l) = (x :: y) :: ys := by
  simp [splitChar, hx, hl]

lemma splitChar_joinComma {segs : List (List Char)} {s : List Char}
    (hs : ',' ∉ s) (hsegs : ∀ t ∈ segs, ',' ∉ t) :
    splitChar ',' (joinComma (s :: segs)) = s :: segs.map (fun t => ' ' :: t) := by
  induction segs generalizing s with
  | nil => simp [joinComma, splitChar_no_sep hs]
  | cons t ts ih =>
    have ht : ',' ∉ t := hsegs t (List.mem_cons_self t ts)
    have hts : ∀ u ∈ ts, ',' ∉ u := fun u hu => hsegs u (List.mem_cons_of_mem t hu)
    show splitChar ',' (s ++ ',' :: ' ' :: joinComma (t :: ts)) = _
    rw [splitChar_append_sep hs, splitChar_cons_head (by decide) (ih ht hts)]
    simp

lemma dropWhile_eq_self_append {p : Char → Bool} {l m : List Char}
    (h : l.dropWhile p = l) (hne : l ≠ []) : (l ++ m).dropWhile p = l ++ m := by
  cases l with
  | nil => exact absurd rfl hne
  | cons x xs =>
    rw [List.dropWhile_cons] at h
    split at h
    · have hlen := congrArg List.length h
      have hle := (List.dropWhile_sublist (p := p) (l := xs)).length_le
      simp at hlen
      omega
    · rename_i hpx
      rw [List.cons_append, List.dropWhile_cons, if_neg hpx]

lemma dropTrailing_append {l m : List Char} (h : dropTrailing m = m) (hne : m ≠ []) :
    dropTrailing (l ++ m) = l ++ m := by
  unfold dropTrailing at h ⊢
  have hm : m.reverse.dropWhile pyIsSpace = m.reverse := by
    have h2 := congrArg List.reverse h
    simpa using h2
  have hr : m.reverse ≠ [] := by simpa using hne
  rw [List.reverse_append, dropWhile_eq_self_append hm hr]
  simp

lemma pyStrip_eq_self {l : List Char} (h1 : l.dropWhile pyIsSpace = l)
    (h2 : dropTrailing l = l) : pyStrip l = l := by
  unfold pyStrip
  rw [h1, h2]

/-- Conditions on one (category, value) pair under which serialization
round-trips: both texts non-empty and free of leading/trailing
whitespace, containing no comma and no `" - "`, and the category not
ending in `" -"` (which would shift the first `" - "` occurrence). -/
def GoodPair (p : List Char × List Char) : Prop :=
  p.1 ≠ [] ∧ p.2 ≠ [] ∧
  p.1.dropWhile pyIsSpace = p.1 ∧ dropTrailing p.1 = p.1 ∧
  p.2.dropWhile pyIsSpace = p.2 ∧ dropTrailing p.2 = p.2 ∧
  ',' ∉ p.1 ∧ ',' ∉ p.2 ∧
  hasSubstr filterSep p.1 = false ∧ hasSubstr filterSep p.2 = false ∧
  ¬ [' ', '-'] <:+ p.1

instance (p : List Char × List Char) : Decidable (GoodPair p) := by
  unfold GoodPair
  infer_instance

/-- The first `" - "` in `c ++ " - " ++ v` is the separator itself when
`c` has no `" - "` and does not end in `" -"`. -/
lemma splitFirst_at_sep {c : List Char} (v : List Char)
    (hno : hasSubstr filterSep c = false) (hend : ¬ [' ', '-'] <:+ c) :
    splitFirst filterSep (c ++ filterSep ++ v) = some (c, v) := by
  induction c with
  | nil => simp [splitFirst, filterSep, List.isPrefixOf]
  | cons x xt ih =>
    rw [hasSubstr] at hno
    rw [Bool.or_eq_false_iff] at hno
    obtain ⟨hno1, hno2⟩ := hno
    have hend' : ¬ [' ', '-'] <:+ xt := fun hsuf => hend (hsuf.trans (List.suffix_cons x xt))
    have hpre : filterSep.isPrefixOf (x :: (xt ++ filterSep ++ v)) = false := by
      cases hb : filterSep.isPrefixOf (x :: (xt ++ filterSep ++ v))
      · rfl
      · exfalso
        rw [List.isPrefixOf_iff_prefix] at hb
        obtain ⟨t, ht⟩ := hb
        match xt with
        | [] => simp [filterSep] at ht
        | [y] =>
          simp only [filterSep, List.cons_append, List.nil_append, List.append_assoc,
            List.cons.injEq] at ht
          obtain ⟨hx, hy, -⟩ := ht
          subst hx
          subst hy
          exact hend (List.suffix_refl _)
        | y :: z :: rest =>
          simp only [filterSep, List.cons_append, List.append_assoc,
            List.cons.injEq] at ht
          obtain ⟨hx, hy, hz, -⟩ := ht
          subst hx
          subst hy
          subst hz
          simp [List.isPrefixOf, filterSep] at hno1
    rw [List.cons_append, List.cons_append, splitFirst, hpre]
    simp only [Bool.false_eq_true, if_false]
    rw [ih hno2 hend']

lemma segOf_ne_nil (p : List Char × List Char) : segOf p ≠ [] := by
  simp [segOf, filterSep]

lemma segOf_no_comma {p : List Char × List Char} (hp : GoodPair p) : ',' ∉ segOf p := by
  obtain ⟨-, -, -, -, -, -, hc1, hc2, -⟩ := hp
  intro hm
  simp only [segOf, List.mem_append, filterSep] at hm
  rcases hm with (h | h) | h
  · exact hc1 h
  · simp at h
  · exact hc2 h

lemma segOf_strip {p : List Char × List Char} (hp : GoodPair p) :
    pyStrip (segOf p) = segOf p := by
  obtain ⟨h1, h2, hl1, ht1, hl2, ht2, -⟩ := hp
  apply pyStrip_eq_self
  · show (p.1 ++ filterSep ++ p.2).dropWhile pyIsSpace = p.1 ++ filterSep ++ p.2
    rw [List.append_assoc]
    exact dropWhile_eq_self_append hl1 h1
  · exact dropTrailing_append ht2 h2

lemma segOf_strip_sp {p : List Char × List Char} (hp : GoodPair p) :
    pyStrip (' ' :: segOf p) = segOf p := by
  obtain ⟨h1, h2, hl1, ht1, hl2, ht2, -⟩ := hp
  unfold pyStrip
  rw [List.dropWhile_cons, if_pos (by decide)]
  have hdw : (segOf p).dropWhile pyIsSpace = segOf p := by
    show (p.1 ++ filterSep ++ p.2).dropWhile pyIsSpace = p.1 ++ filterSep ++ p.2
    rw [List.append_assoc]
    exact dropWhile_eq_self_append hl1 h1
  rw [hdw]
  exact dropTrailing_append ht2 h2

lemma segOf_parse {p : List Char × List Char} (hp : GoodPair p) :
    (match splitFirst filterSep (segOf p) with
     | some (cat, val) => some (pyStrip cat, pyStrip val)
     | Option.none => Option.none) = some p := by
  obtain ⟨h1, h2, hl1, ht1, hl2, ht2, hc1, hc2, hs1, hs2, hes⟩ := hp
  rw [show segOf p = p.1 ++ filterSep ++ p.2 from rfl, splitFirst_at_sep p.2 hs1 hes]
  simp only []
  rw [pyStrip_eq_self hl1 ht1, pyStrip_eq_self hl2 ht2]

lemma filterMap_id_of {α : Type} {f : α → Option α} :
    ∀ {l : List α}, (∀ a ∈ l, f a = some a) → l.filterMap f = l := by
  intro l h
  induction l with
  | nil => rfl
  | cons a as ih =>
    simp only [List.filterMap_cons, h a (List.mem_cons_self a as)]
    rw [ih (fun b hb => h b (List.mem_cons_of_mem a hb))]

/-- Counterexample to C4 as stated: the pair `("a,b", "v")` contains no
embedded `", "` and no `" - "` in either text, yet extraction of its
serialization yields `[("b", "v")]`, not the original pair — the
split on the bare `','` inside the category breaks the round trip. -/
theorem roundtrip_fails_on_embedded_comma :
    (hasSubstr [',', ' '] "a,b".data = false ∧ hasSubstr filterSep "a,b".data = false ∧
     hasSubstr [',', ' '] "v".data = false ∧ hasSubstr filterSep "v".data = false) ∧
    parseFiltersCore (serializeFilters [("a,b".data, "v".data)]) ≠
      [("a,b".data, "v".data)] :=
  ⟨by decide, by decide⟩

/-- C4 (amended): extraction of a serialized pair list recovers the
original pairs provided each category and value is non-empty, has no
leading or trailing whitespace, contains no comma (not merely no
`", "`) and no `" - "`, and the category does not end with `" -"`;
extraction splits on `','`, splits each trimmed non-empty segment once
on the first `" - "`, and silently drops segments lacking that
separator. -/
theorem extract_serialize_roundtrip (pairs : List (List Char × List Char))
    (h : ∀ p ∈ pairs, GoodPair p) :
    parseFiltersCore (serializeFilters pairs) = pairs := by
  cases pairs with
  | nil => rfl
  | cons p ps =>
    have hp := h p (List.mem_cons_self p ps)
    have hps : ∀ q ∈ ps, GoodPair q := fun q hq => h q (List.mem_cons_of_mem p hq)
    rw [serializeFilters_eq_segs]
    unfold parseFiltersCore
    rw [List.map_cons, splitChar_joinComma (segOf_no_comma hp) (by
      intro t ht
      obtain ⟨q, hq, rfl⟩ := List.mem_map.mp ht
      exact segOf_no_comma (hps q hq))]
    have hmaps : (segOf p :: (ps.map segOf).map (fun t => ' ' :: t)).map pyStrip =
        segOf p :: ps.map segOf := by
      rw [List.map_cons, segOf_strip hp, List.map_map, List.map_map]
      congr 1
      exact List.map_congr_left (fun q hq => segOf_strip_sp (hps q hq))
    rw [hmaps]
    have hfilter : (segOf p :: ps.map segOf).filter (fun t => !t.isEmpty) =
        segOf p :: ps.map segOf := by
      rw [List.filter_eq_self]
      intro t ht
      rcases List.mem_cons.mp ht with rfl | ht
      · simpa [List.isEmpty_iff] using segOf_ne_nil p
      · obtain ⟨q, hq, rfl⟩ := List.mem_map.mp ht
        simpa [List.isEmpty_iff] using segOf_ne_nil q
    rw [hfilter, show segOf p :: ps.map segOf = (p :: ps).map segOf from rfl,
      List.filterMap_map]
    exact filterMap_id_of (fun q hq => segOf_parse (h q hq))

/-- Witness for C4 (amended): a concrete well-formed pair list
round-trips through serialization and extraction. -/
theorem extract_serialize_roundtrip_witness :
    parseFiltersCore
        (serializeFilters [("Brand".data, "Nike".data), ("Color".data, "Blue".data)]) =
      [("Brand".data, "Nike".data), ("Color".data, "Blue".data)] :=
  extract_serialize_roundtrip _ (by decide)

/-! ## Dataframe lemmas (C8) -/

/-- Column lookup on the raw column list. -/
def findCol (cols : List (String × List Cell)) (m : String) : Option (List Cell) :=
  (cols.find? (fun p => p.1 = m)).map (fun p => p.2)

lemma getCol?_eq_findCol (df : DF) (m : String) : getCol? df m = findCol df.cols m := rfl

lemma findCol_cons (p : String × List Cell) (ps : List (String × List Cell)) (m : String) :
    findCol (p :: ps) m = if p.1 = m then some p.2 else findCol ps m := by
  unfold findCol
  by_cases h : p.1 = m
  · rw [List.find?_cons_of_pos _ (by simpa using h), if_pos h]
    rfl
  · rw [List.find?_cons_of_neg _ (by simpa using h), if_neg h]

lemma nrows_setCol (df : DF) (n : String) (d : List Cell) :
    (setCol df n d).nrows = df.nrows := by
  unfold setCol
  split <;> rfl

lemma nrows_mapCol (df : DF) (n : String) (f : Cell → Cell) :
    (mapCol df n f).nrows = df.nrows := rfl

lemma nrows_cppRenameDate (df : DF) : (cppRenameDate df).nrows = df.nrows := by
  unfold cppRenameDate
  split
  · exact nrows_setCol df "scrape_date" _
  · rfl

lemma findCol_replace (cols : List (String × List Cell)) (n : String) (d : List Cell)
    (m : String) :
    findCol (cols.map (fun p => if p.1 = n then (n, d) else p)) m =
      if m = n then (findCol cols n).map (fun _ => d) else findCol cols m := by
  induction cols with
  | nil => simp [findCol]
  | cons p ps ih =>
    by_cases hp : p.1 = n
    · by_cases hm : m = n
      · subst hm
        simp [List.map_cons, hp, findCol_cons, ih]
      · have h1 : ¬ (n : String) = m := fun h => hm h.symm
        have h2 : ¬ p.1 = m := fun h => hm (h.symm.trans hp)
        simp [List.map_cons, hp, findCol_cons, ih, hm, h1, h2]
    · by_cases hm2 : p.1 = m
      · have hmn : ¬ m = n := fun he => hp (hm2.trans he)
        simp [List.map_cons, hp, findCol_cons, hm2, hmn]
      · simp [List.map_cons, hp, findCol_cons, hm2, ih]

lemma findCol_append_one (cols : List (String × List Cell)) (n : String) (d : List Cell)
    (m : String) :
    findCol (cols ++ [(n, d)]) m =
      match findCol cols m with
      | some x => some x
      | Option.none => if m = n then some d else Option.none := by
  induction cols with
  | nil =>
    by_cases hm : m = n
    · simp [findCol, hm]
    · have h1 : ¬ (n : String) = m := fun h => hm h.symm
      simp [findCol, hm, h1]
  | cons p ps ih =>
    rw [List.cons_append]
    simp only [findCol_cons]
    by_cases hm2 : p.1 = m
    · simp [hm2]
    · simp [hm2, ih]

lemma getCol?_setCol (df : DF) (n : String) (d : List Cell) (m : String) :
    getCol? (setCol df n d) m = if m = n then some d else getCol? df m := by
  unfold setCol
  split
  · rename_i hpres
    rw [getCol?_eq_findCol]
    show findCol (df.cols.map _) m = _
    rw [findCol_replace]
    by_cases hm : m = n
    · subst hm
      rcases hfind : findCol df.cols m with - | x
      · exfalso
        unfold hasCol at hpres
        rw [getCol?_eq_findCol, hfind] at hpres
        simp at hpres
      · simp [hfind]
    · simp [hm, getCol?_eq_findCol]
  · rename_i habs
    rw [getCol?_eq_findCol]
    show findCol (df.cols ++ [(n, d)]) m = _
    rw [findCol_append_one]
    by_cases hm : m = n
    · subst hm
      rcases hfind : findCol df.cols m with - | x
      · simp [hfind]
      · exfalso
        apply habs
        unfold hasCol
        rw [getCol?_eq_findCol, hfind]
        rfl
    · rcases hfind : findCol df.cols m with - | x <;>
        simp [hm, hfind, getCol?_eq_findCol]

lemma findCol_mapCol (cols : List (String × List Cell)) (n : String) (f : Cell → Cell)
    (m : String) :
    findCol (cols.map (fun p => if p.1 = n then (p.1, p.2.map f) else p)) m =
      if m = n then (findCol cols m).map (List.map f) else findCol cols m := by
  induction cols with
  | nil => simp [findCol]
  | cons p ps ih =>
    rw [List.map_cons]
    simp only [findCol_cons]
    have hfst : (if p.1 = n then (p.1, p.2.map f) else p).1 = p.1 := by split <;> rfl
    have hsnd : (if p.1 = n then (p.1, p.2.map f) else p).2 =
        if p.1 = n then p.2.map f else p.2 := by split <;> rfl
    rw [hfst, hsnd]
    by_cases hm2 : p.1 = m
    · by_cases hmn : m = n
      · subst hmn
        simp [hm2]
      · have hpn : ¬ p.1 = n := fun h => hmn (hm2.symm.trans h)
        simp [hm2, hmn, hpn]
    · rw [if_neg hm2, ih]
      by_cases hmn : m = n
      · subst hmn
        simp [hm2]
      · simp [hmn, hm2]

lemma getCol?_mapCol (df : DF) (n : String) (f : Cell → Cell) (m : String) :
    getCol? (mapCol df n f) m =
      if m = n then (getCol? df m).map (List.map f) else getCol? df m := by
  rw [getCol?_eq_findCol, getCol?_eq_findCol]
  exact findCol_mapCol df.cols n f m

lemma hasCol_mapCol (df : DF) (n : String) (f : Cell → Cell) (m : String) :
    hasCol (mapCol df n f) m = hasCol df m := by
  unfold hasCol
  rw [getCol?_mapCol]
  by_cases hm : m = n
  · simp [hm]
  · simp [hm]

lemma findCol_dropCol (cols : List (String × List Cell)) (n m : String) :
    findCol (cols.filter (fun p => p.1 ≠ n)) m =
      if m = n then Option.none else findCol cols m := by
  induction cols with
  | nil => simp [findCol]
  | cons p ps ih =>
    by_cases hpn : p.1 = n
    · rw [List.filter_cons_of_neg (by simpa using hpn), ih]
      by_cases hmn : m = n
      · simp [hmn]
      · have hne : ¬ p.1 = m := fun h => hmn (h.symm.trans hpn)
        rw [findCol_cons, if_neg hne]
    · rw [List.filter_cons_of_pos (by simpa using hpn), findCol_cons, findCol_cons]
      by_cases hm2 : p.1 = m
      · have hmn : ¬ m = n := fun h => hpn (hm2.trans h)
        simp [hm2, hmn]
      · rw [if_neg hm2, if_neg hm2, ih]

lemma getCol?_dropCol (df : DF) (n m : String) :
    getCol? (dropCol df n) m = if m = n then Option.none else getCol? df m := by
  rw [getCol?_eq_findCol, getCol?_eq_findCol]
  exact findCol_dropCol df.cols n m

lemma getCol?_ensureCols (names : List String) (df : DF) (c : String) :
    getCol? (ensureCols names df) c =
      match getCol? df c with
      | some col => some col
      | Option.none =>
        if c ∈ names then some (List.replicate df.nrows Cell.none) else Option.none := by
  induction names generalizing df with
  | nil => rcases h : getCol? df c with - | col <;> simp [ensureCols, h]
  | cons n ns ih =>
    show getCol? (ensureCols ns (if hasCol df n then df
      else setCol df n (List.replicate df.nrows Cell.none))) c = _
    by_cases hpres : hasCol df n
    · rw [if_pos hpres, ih]
      by_cases hc : c = n
      · subst hc
        rcases hg : getCol? df c with - | col
        · exfalso
          unfold hasCol at hpres
          rw [hg] at hpres
          simp at hpres
        · simp [hg]
      · rcases hg : getCol? df c with - | col <;> simp [hg, hc]
    · rw [if_neg hpres, ih, getCol?_setCol, nrows_setCol]
      by_cases hc : c = n
      · subst hc
        rcases hg : getCol? df c with - | col
        · simp [hg]
        · exfalso
          apply hpres
          unfold hasCol
          rw [hg]
          rfl
      · rcases hg : getCol? df c with - | col <;> simp [hg, hc]

lemma selectCols_map_fst (df : DF) (names : List String) :
    (selectCols df names).cols.map Prod.fst = names.filter (fun n => hasCol df n) := by
  induction names with
  | nil => rfl
  | cons n ns ih =>
    show ((n :: ns).filterMap (fun x => (getCol? df x).map (fun d => (x, d)))).map Prod.fst =
      (n :: ns).filter (fun n => hasCol df n)
    rw [List.filterMap_cons, List.filter_cons]
    have hrest : ((ns.filterMap fun x => (getCol? df x).map (fun d => (x, d))).map Prod.fst) =
        ns.filter (fun n => hasCol df n) := ih
    rcases hg : getCol? df n with - | d
    · have hb : hasCol df n = false := by
        unfold hasCol
        rw [hg]
        rfl
      simp [hg, hb, hrest]
    · have hb : hasCol df n = true := by
        unfold hasCol
        rw [hg]
        rfl
      simp [hg, hb, hrest]

lemma getCol?_selectCols (df : DF) (names : List String) (c : String) (hc : c ∈ names)
    (hall : ∀ n ∈ names, hasCol df n = true) :
    getCol? (selectCols df names) c = getCol? df c := by
  induction names with
  | nil => simp at hc
  | cons n ns ih =>
    have hn := hall n (List.mem_cons_self n ns)
    rcases hg : getCol? df n with - | d
    · unfold hasCol at hn
      rw [hg] at hn
      simp at hn
    · rw [getCol?_eq_findCol]
      show findCol ((n :: ns).filterMap (fun x => (getCol? df x).map (fun d => (x, d)))) c =
        getCol? df c
      rw [List.filterMap_cons, hg]
      simp only [Option.map_some']
      rw [findCol_cons]
      by_cases hcn : n = c
      · subst hcn
        simp [hg]
      · rw [if_neg hcn]
        have hc' : c ∈ ns := by
          rcases List.mem_cons.mp hc with h | h
          · exact absurd h.symm hcn
          · exact h
        show getCol? (selectCols df ns) c = getCol? df c
        exact ih hc' (fun x hx => hall x (List.mem_cons_of_mem n hx))

lemma getCol?_cppRenameDate_other (df : DF) (c : String) (h1 : ¬ c = "scrape_date")
    (h2 : ¬ c = "date") : getCol? (cppRenameDate df) c = getCol? df c := by
  unfold cppRenameDate
  split
  · rw [getCol?_dropCol, if_neg h2, getCol?_setCol, if_neg h1]
  · rfl

lemma getCol?_cppRenameDate_sd (df : DF) (hd : hasCol df "date" = false) :
    getCol? (cppRenameDate df) "scrape_date" = getCol? df "scrape_date" := by
  unfold cppRenameDate
  rw [hd]
  simp

/-- Every expected column is present after the synthesize-and-coerce
stages. -/
lemma hallClean (df : DF) :
    ∀ c ∈ expected_cols,
      hasCol (cppCoerce (ensureCols expected_cols (cppRenameDate df))) c = true := by
  intro c hcmem
  simp only [cppCoerce, hasCol_mapCol]
  unfold hasCol
  rw [getCol?_ensureCols]
  rcases hg : getCol? (cppRenameDate df) c with - | col
  · simp [hg, hcmem]
  · simp [hg]

/-- An absent column reads as `none`. -/
lemma getCol?_none_of_not_hasCol {df : DF} {c : String} (h : hasCol df c = false) :
    getCol? df c = Option.none := by
  unfold hasCol at h
  rcases hg : getCol? df c with - | col
  · rfl
  · rw [hg] at h
    simp at h

/-- Counterexample to C8: a batch lacking the `is_carousel` column gets
it synthesized and then coerced by `astype(bool)` to `False` — not
null — for every row. -/
theorem clean_missing_bool_column_not_null :
    getCol? (clean_popular_products ⟨1, [("keyword", [Cell.str "shoes"])]⟩) "is_carousel" =
      some [Cell.bool false] ∧ Cell.bool false ≠ Cell.none :=
  ⟨rfl, by decide⟩

/-- C8 (amended): `clean_popular_products` emits exactly the canonical
column set in canonical order (extras dropped); an expected column
entirely absent from the input batch is synthesized as null for every
row for the string, numeric and datetime columns, but the two boolean
columns (`is_carousel`, `has_product_page`) end up `False` for every
row, not null.  `clean_shopping_tab`, by contrast, synthesizes
nothing: it emits, in canonical order, only the canonical columns
actually present (a missing column is simply omitted). -/
theorem clean_columns_spec :
    (∀ df : DF, (clean_popular_products df).cols.map Prod.fst = expected_cols) ∧
    (∀ df : DF, ∀ c ∈ (["keyword", "product_id", "title", "link", "price_raw", "merchant",
        "carousel_position"] : List String), hasCol df c = false →
      getCol? (clean_popular_products df) c = some (List.replicate df.nrows Cell.none)) ∧
    (∀ df : DF, ∀ c ∈ (["position", "reviews", "rating", "price"] : List String),
      hasCol df c = false →
      getCol? (clean_popular_products df) c = some (List.replicate df.nrows Cell.none)) ∧
    (∀ df : DF, hasCol df "scrape_date" = false → hasCol df "date" = false →
      getCol? (clean_popular_products df) "scrape_date" =
        some (List.replicate df.nrows Cell.none)) ∧
    (∀ df : DF, ∀ c ∈ (["is_carousel", "has_product_page"] : List String),
      hasCol df c = false →
      getCol? (clean_popular_products df) c =
        some (List.replicate df.nrows (Cell.bool false))) ∧
    (∀ df : DF, List.Sublist ((clean_shopping_tab df).cols.map Prod.fst) st_cols) ∧
    (clean_shopping_tab ⟨1, [("keyword", [Cell.str "k"]),
        ("position", [Cell.num ⟨1, 1⟩])]⟩).cols.map Prod.fst = ["keyword", "position"] := by
  refine ⟨?_, ?_, ?_, ?_, ?_, ?_, rfl⟩
  · intro df
    unfold clean_popular_products
    rw [selectCols_map_fst]
    exact List.filter_eq_self.mpr (hallClean df)
  · intro df c hcmem habs
    fin_cases hcmem <;>
    · unfold clean_popular_products
      rw [getCol?_selectCols _ _ _ (by decide) (hallClean df)]
      simp only [cppCoerce, getCol?_mapCol]
      simp only [String.reduceEq, if_false, if_true, reduceIte]
      rw [getCol?_ensureCols, getCol?_cppRenameDate_other _ _ (by decide) (by decide),
        getCol?_none_of_not_hasCol habs, nrows_cppRenameDate]
      simp [expected_cols]
  · intro df c hcmem habs
    fin_cases hcmem <;>
    · unfold clean_popular_products
      rw [getCol?_selectCols _ _ _ (by decide) (hallClean df)]
      simp only [cppCoerce, getCol?_mapCol]
      simp only [String.reduceEq, if_false, if_true, reduceIte]
      rw [getCol?_ensureCols, getCol?_cppRenameDate_other _ _ (by decide) (by decide),
        getCol?_none_of_not_hasCol habs, nrows_cppRenameDate]
      simp [expected_cols, pdToNumeric]
  · intro df hsd hd
    unfold clean_popular_products
    rw [getCol?_selectCols _ _ _ (by decide) (hallClean df)]
    simp only [cppCoerce, getCol?_mapCol]
    simp only [String.reduceEq, if_false, if_true, reduceIte]
    rw [getCol?_ensureCols, getCol?_cppRenameDate_sd df hd,
      getCol?_none_of_not_hasCol hsd, nrows_cppRenameDate]
    simp [expected_cols, pdToDatetime]
  · intro df c hcmem habs
    fin_cases hcmem <;>
    · unfold clean_popular_products
      rw [getCol?_selectCols _ _ _ (by decide) (hallClean df)]
      simp only [cppCoerce, getCol?_mapCol]
      simp only [String.reduceEq, if_false, if_true, reduceIte]
      rw [getCol?_ensureCols, getCol?_cppRenameDate_other _ _ (by decide) (by decide),
        getCol?_none_of_not_hasCol habs, nrows_cppRenameDate]
      simp [expected_cols, astypeBool]
  · intro df
    simp only [clean_shopping_tab]
    rw [selectCols_map_fst]
    exact (List.filter_sublist _).trans (List.filter_sublist _)

/-- A sample two-row batch carrying only a `keyword` column. -/
def dfSample : DF := ⟨2, [("keyword", [Cell.str "a", Cell.str "b"])]⟩

/-- Witness for C8 (amended): on a concrete batch with only `keyword`,
the output has exactly the canonical columns; absent string, numeric
and datetime columns are all-null; the absent boolean column is
all-`False`; and the shopping-tab cleaner's columns are a canonical
sublist. -/
theorem clean_columns_spec_witness :
    (clean_popular_products dfSample).cols.map Prod.fst = expected_cols ∧
    getCol? (clean_popular_products dfSample) "title" = some (List.replicate 2 Cell.none) ∧
    getCol? (clean_popular_products dfSample) "position" =
      some (List.replicate 2 Cell.none) ∧
    getCol? (clean_popular_products dfSample) "scrape_date" =
      some (List.replicate 2 Cell.none) ∧
    getCol? (clean_popular_products dfSample) "is_carousel" =
      some (List.replicate 2 (Cell.bool false)) ∧
    List.Sublist ((clean_shopping_tab dfSample).cols.map Prod.fst) st_cols :=
  ⟨clean_columns_spec.1 dfSample,
   clean_columns_spec.2.1 dfSample "title" (by decide) rfl,
   clean_columns_spec.2.2.1 dfSample "position" (by decide) rfl,
   clean_columns_spec.2.2.2.1 dfSample rfl rfl,
   clean_columns_spec.2.2.2.2.1 dfSample "is_carousel" (by decide) rfl,
   clean_columns_spec.2.2.2.2.2.1 dfSample⟩
